import Mathlib

/-!
Verification development for `src/Wikipedia.gs.js` of
tomayac/wikipedia-tools-for-google-spreadsheets.

The JavaScript file is a flat collection of Google-Sheets custom functions.
Each function parses a `language:subject` locator, builds one HTTP request,
hands it to `UrlFetchApp.fetch`, reshapes the parsed response into a 1-D or
2-D array of scalars, and returns `''` when nothing was produced.  The whole
try/catch body of every function is modelled here as a pure function that
receives the fetch capability as an explicit argument
`fetch : Request → Except Unit Payload`; `.error ()` stands for any
exception raised while fetching or while digging through the parsed
XML/JSON payload (network failure, parse failure, unexpected shape), which
the JavaScript `catch` swallows.  Values `.ok p` carry the extracted
entries exactly as the response-walking code of the function would read
them off a well-formed payload.

Model conventions, used uniformly below:
* JavaScript strings are Lean `String`s; absent optional string arguments
  and `''` are both falsy in JavaScript and are modelled as `""`.
* `undefined` results (a bare `return;`) are `JsVal.undef`.
* A JavaScript `Date` is its UTC millisecond value (`Int`); an
  `Invalid Date` is `none`.
* JavaScript objects used as string-keyed maps are insertion-ordered
  association lists (`List (String × String)`); language codes and
  Wikidata ids are never integer-like, so JavaScript's special ordering of
  integer-like keys never applies.
-/

namespace WP

/-- Scalar cell of a spreadsheet result: string, number, or Date
(UTC milliseconds, `none` for an invalid date). -/
inductive Cell where
  | str : String → Cell
  | num : Int → Cell
  | date : Option Int → Cell
deriving DecidableEq, Repr

/-- One element of a returned JavaScript array: either a scalar (1-D
results) or a nested array of scalars (a 2-D result row). -/
inductive Entry where
  | cell : Cell → Entry
  | row : List Cell → Entry
deriving DecidableEq, Repr

/-- Value returned by one of the spreadsheet functions: a plain string
(the `''` "no data" sentinel), an array, the object produced by
`WIKITRANSLATE` when `_opt_returnAsObject` is set, or `undefined`. -/
inductive JsVal where
  | str : String → JsVal
  | arr : List Entry → JsVal
  | obj : List (String × String) → JsVal
  | undef : JsVal
deriving DecidableEq, Repr

/-- Model of `return results.length > 0 ? results : '';`, the closing line
of almost every function in the file. -/
def resultsOrEmpty (results : List Entry) : JsVal :=
  if results.length > 0 then .arr results else .str ""

/-- Model of `var DEFAULT_LANGUAGE = 'en';` (Wikipedia.gs.js line 24). -/
def DEFAULT_LANGUAGE : String := "en"

/-- Model of `article.indexOf(':') !== -1`. -/
def jsHasColon (s : String) : Bool :=
  s.toList.contains ':'

/-- ECMAScript line terminators (LF, CR, LINE SEPARATOR, PARAGRAPH
SEPARATOR): exactly the characters that `.` in a regular expression
without the `s` flag does not match. -/
def isLineTerminator (c : Char) : Bool :=
  c.toNat == 0xA || c.toNat == 0xD || c.toNat == 0x2028 || c.toNat == 0x2029

/-- Whether a string contains an ECMAScript line terminator. -/
def hasLineTerminator (s : String) : Bool :=
  s.toList.any isLineTerminator

/-- ECMAScript `\s` (WhiteSpace and LineTerminator): TAB, LF, VT, FF,
CR, SPACE, NBSP, OGHAM SPACE MARK, the U+2000 to U+200A spaces, LINE and
PARAGRAPH SEPARATOR, NARROW NBSP, MEDIUM MATHEMATICAL SPACE, IDEOGRAPHIC
SPACE and ZWNBSP. -/
def jsIsWhitespace (c : Char) : Bool :=
  let n := c.toNat
  (n == 0x20) || (Nat.ble 0x9 n && Nat.ble n 0xD) || (n == 0xA0) || (n == 0x1680) ||
    (Nat.ble 0x2000 n && Nat.ble n 0x200A) || (n == 0x2028) || (n == 0x2029) ||
    (n == 0x202F) || (n == 0x205F) || (n == 0x3000) || (n == 0xFEFF)

/-- Split of a character list at its first `:`, following
`split(/:(.+)?/)`: the first component is the part before the first
colon (`[0]` of the split); the second is the `(.+)?` capture (`[1]` of
the split), the run of non-line-terminator characters immediately after
the first colon - `.` does not match line terminators, so the capture
stops at the first one.  An empty run means the capture is `undefined`;
`undefined` and `''` behave identically at the `if (!title)` guards and
both are modelled as the empty list. -/
def splitFirstColon : List Char → List Char × Option (List Char)
  | [] => ([], none)
  | c :: cs =>
    if c = ':' then ([], some (cs.takeWhile fun ch => !(isLineTerminator ch)))
    else
      let r := splitFirstColon cs
      (c :: r.1, r.2)

/-- Model of the locator parsing block shared verbatim by most functions:
`article.split(/:(.+)?/)[0]` / `[1]` when `article.indexOf(':') !== -1`,
else `DEFAULT_LANGUAGE` and the whole string.  The subject is the
`(.+)?` capture behind the first colon (see `splitFirstColon`). -/
def parseLocator (s : String) : String × String :=
  if jsHasColon s then
    let r := splitFirstColon s.toList
    (String.mk r.1, String.mk (r.2.getD []))
  else (DEFAULT_LANGUAGE, s)

/-- Model of `(category.match(/:/g) || []).length`. -/
def colonCount (s : String) : Nat :=
  s.toList.count ':'

/-- Model of the locator parsing block of `WIKICATEGORYMEMBERS` and
`WIKISUBCATEGORIES` (Wikipedia.gs.js lines 354-360 and 405-411): the
split on the first colon is performed only when the string contains
more than one colon; otherwise the whole string is the title and the
default language is used. -/
def parseLocatorMulti (s : String) : String × String :=
  if colonCount s > 1 then
    let r := splitFirstColon s.toList
    (String.mk r.1, String.mk (r.2.getD []))
  else (DEFAULT_LANGUAGE, s)

/-- Model of `title.replace(/\s/g, '_')` (`\s` as in ECMAScript, see
`jsIsWhitespace`). -/
def jsSpacesToUnderscores (s : String) : String :=
  String.mk (s.toList.map fun c => if jsIsWhitespace c then '_' else c)

/-- Model of `title.replace(/_/g, ' ')`. -/
def jsUnderscoresToSpaces (s : String) : String :=
  String.mk (s.toList.map fun c => if c = '_' then ' ' else c)

/-- UTF-8 bytes of a Unicode scalar value. -/
def utf8Bytes (n : Nat) : List Nat :=
  if n < 0x80 then [n]
  else if n < 0x800 then [0xC0 + n / 64, 0x80 + n % 64]
  else if n < 0x10000 then [0xE0 + n / 4096, 0x80 + (n / 64) % 64, 0x80 + n % 64]
  else [0xF0 + n / 262144, 0x80 + (n / 4096) % 64, 0x80 + (n / 64) % 64, 0x80 + n % 64]

/-- Uppercase hexadecimal digit. -/
def hexDigit (n : Nat) : Char :=
  if n < 10 then Char.ofNat (48 + n) else Char.ofNat (55 + n)

/-- Characters that JavaScript's `encodeURIComponent` leaves unescaped:
alphanumerics and `- _ . ! ~ * ' ( )`. -/
def isUriUnreserved (c : Char) : Bool :=
  c.isAlphanum || c ∈ ['-', '_', '.', '!', '~', '*', Char.ofNat 39, '(', ')']

/-- Model of JavaScript's `encodeURIComponent`: every character outside
the unreserved set is percent-encoded byte-wise in UTF-8. -/
def encodeURIComponent (s : String) : String :=
  String.mk (s.toList.flatMap fun c =>
    if isUriUnreserved c then [c]
    else (utf8Bytes c.toNat).flatMap fun b => ['%', hexDigit (b / 16), hexDigit (b % 16)])

/-- Model of the `opt ? encodeURIComponent(opt) : deflt` pattern used for
optional namespace arguments (`""` models an absent / falsy argument). -/
def encOr (value deflt : String) : String :=
  if value = "" then deflt else encodeURIComponent value

/-- Model of the `opt ? opt : deflt` pattern used for optional arguments
that are interpolated without encoding. -/
def orDefault (value deflt : String) : String :=
  if value = "" then deflt else value

/-- An upstream HTTP request: the URL before `?` (with all path
interpolation already performed) and the query parameters in the order
the source concatenates `&key=value` fragments.  REST-style endpoints
put everything in `path` and have no parameters. -/
structure Request where
  path : String
  params : List (String × String)
deriving DecidableEq, Repr

/-- Days from civil 1970-01-01 for a proleptic-Gregorian date with
`m ∈ [1,12]` (Howard Hinnant's `days_from_civil`; the day may lie outside
the month and rolls over, exactly as in ECMAScript `MakeDay`). -/
def daysFromCivil (y m d : Int) : Int :=
  let y := if m ≤ 2 then y - 1 else y
  let era := (if 0 ≤ y then y else y - 399) / 400
  let yoe := y - era * 400
  let mp := (m + 9) % 12
  let doy := (153 * mp + 2) / 5 + d - 1
  let doe := yoe * 365 + yoe / 4 - yoe / 100 + doy
  era * 146097 + doe - 719468

/-- Model of `Date.UTC(year, monthIndex, day, hour, minute, second)` in
milliseconds: years 0-99 are read as 1900-1999, out-of-range month
indices and days roll over, exactly as in ECMAScript. -/
def jsDateUTC (year monthIndex day hour minute second : Int) : Int :=
  let year := if 0 ≤ year ∧ year ≤ 99 then year + 1900 else year
  let months := year * 12 + monthIndex
  let y := months / 12
  let m := months % 12 + 1
  (daysFromCivil y m 1 + (day - 1)) * 86400000 +
    hour * 3600000 + minute * 60000 + second * 1000

/-- Numeric value of a list of decimal digit characters
(`parseInt(ds, 10)` on a known-digit string). -/
def digitsToNat (l : List Char) : Nat :=
  l.foldl (fun n c => n * 10 + (c.toNat - 48)) 0

/-- Full split of a character list at every occurrence of `sep`
(JavaScript `String.prototype.split` with a plain separator). -/
def jsSplit (sep : Char) : List Char → List (List Char)
  | [] => [[]]
  | c :: cs =>
    let r := jsSplit sep cs
    if c = sep then [] :: r
    else
      match r with
      | piece :: rest => (c :: piece) :: rest
      | [] => [[c]]

/-- Model of `parseInt(s, 10)`: skip leading ECMAScript whitespace, read
an optional sign and then the longest run of decimal digits; `none`
models `NaN` (no digits).  Trailing garbage after the digits is
ignored, exactly as in ECMAScript. -/
def jsParseInt10 (s : String) : Option Int :=
  let l := s.toList.dropWhile jsIsWhitespace
  let signAndRest : Bool × List Char :=
    match l with
    | '-' :: rest => (true, rest)
    | '+' :: rest => (false, rest)
    | _ => (false, l)
  let ds := signAndRest.2.takeWhile Char.isDigit
  if ds.isEmpty then none
  else some ((if signAndRest.1 then -1 else 1) * (Int.ofNat (digitsToNat ds)))

/-- Fields of a pageview timestamp `^(\d{4})(\d{2})(\d{2})(\d{2})$`
(year, month, day, hour); `none` when the string does not match the
anchored pattern, in which case the `replace` leaves the string
unchanged and the `split('-')` / `parseInt` fallback of
`timestamp10Date` applies. -/
def parseTimestamp10 (ts : String) : Option (Nat × Nat × Nat × Nat) :=
  match ts.toList with
  | [y1, y2, y3, y4, m1, m2, d1, d2, h1, h2] =>
    if ([y1, y2, y3, y4, m1, m2, d1, d2, h1, h2].all Char.isDigit) then
      some (digitsToNat [y1, y2, y3, y4], digitsToNat [m1, m2],
        digitsToNat [d1, d2], digitsToNat [h1, h2])
    else none
  | _ => none

/-- Fields of a unique-devices timestamp `^(\d{4})(\d{2})(\d{2})$`
(year, month, day); `none` when the string does not match the anchored
pattern and the `split('-')` / `parseInt` fallback of `timestamp8Date`
applies. -/
def parseTimestamp8 (ts : String) : Option (Nat × Nat × Nat) :=
  match ts.toList with
  | [y1, y2, y3, y4, m1, m2, d1, d2] =>
    if ([y1, y2, y3, y4, m1, m2, d1, d2].all Char.isDigit) then
      some (digitsToNat [y1, y2, y3, y4], digitsToNat [m1, m2],
        digitsToNat [d1, d2])
    else none
  | _ => none

/-- Fields of a revision timestamp
`^(\d{4})-(\d{2})-(\d{2})T(\d{2}):(\d{2}):(\d{2})Z$`
(year, month, day, hour, minute, second); `none` when the string does
not match the anchored pattern and the `split('-')` / `parseInt`
fallback of `revisionTimestampDate` applies. -/
def parseRevisionTimestamp (ts : String) : Option (Nat × Nat × Nat × Nat × Nat × Nat) :=
  match ts.toList with
  | [y1, y2, y3, y4, da, m1, m2, db, d1, d2, t, h1, h2, ca, i1, i2, cb, s1, s2, z] =>
    if ([y1, y2, y3, y4, m1, m2, d1, d2, h1, h2, i1, i2, s1, s2].all Char.isDigit)
        && da = '-' && db = '-' && t = 'T' && ca = ':' && cb = ':' && z = 'Z' then
      some (digitsToNat [y1, y2, y3, y4], digitsToNat [m1, m2],
        digitsToNat [d1, d2], digitsToNat [h1, h2],
        digitsToNat [i1, i2], digitsToNat [s1, s2])
    else none
  | _ => none

/-- Piece `i` of `split('-')` fed to `parseInt(-, 10)`.  A missing piece
is `undefined`, and `parseInt(undefined, 10)` is `NaN`, exactly like
`parseInt` of a digit-free string, so `getD` with `""` is faithful. -/
def dashPieceInt (ts : String) (i : Nat) : Option Int :=
  jsParseInt10 (String.mk ((jsSplit '-' ts.toList).getD i []))

/-- Date of a daily/hourly statistics entry
(`new Date(Date.UTC(year, month - 1, day, hour, 0, 0))`).  A timestamp
matching `^(\d{4})(\d{2})(\d{2})(\d{2})$` is rewritten to
`$1-$2-$3-$4`; any other string passes through `replace` unchanged and
is then split at `-` and fed to `parseInt`, so dash-separated numeric
strings such as `"2020-1-1-0"` still produce a valid date, while any
`NaN` piece gives an `Invalid Date` (`none`). -/
def timestamp10Date (ts : String) : Option Int :=
  match parseTimestamp10 ts with
  | some (y, m, d, h) =>
    some (jsDateUTC (Int.ofNat y) (Int.ofNat m - 1) (Int.ofNat d) (Int.ofNat h) 0 0)
  | none =>
    match dashPieceInt ts 0, dashPieceInt ts 1, dashPieceInt ts 2, dashPieceInt ts 3 with
    | some y, some m, some d, some h => some (jsDateUTC y (m - 1) d h 0 0)
    | _, _, _, _ => none

/-- Date of a unique-devices entry
(`new Date(Date.UTC(year, month - 1, day, 0, 0, 0))`), with the same
`replace` / `split('-')` / `parseInt` fallback as `timestamp10Date` for
strings not matching `^(\d{4})(\d{2})(\d{2})$`. -/
def timestamp8Date (ts : String) : Option Int :=
  match parseTimestamp8 ts with
  | some (y, m, d) =>
    some (jsDateUTC (Int.ofNat y) (Int.ofNat m - 1) (Int.ofNat d) 0 0 0)
  | none =>
    match dashPieceInt ts 0, dashPieceInt ts 1, dashPieceInt ts 2 with
    | some y, some m, some d => some (jsDateUTC y (m - 1) d 0 0 0)
    | _, _, _ => none

/-- Date of a revision entry
(`new Date(Date.UTC(year, month - 1, day, hour, minute, second))`).  A
matching ISO timestamp is rewritten to six dash-separated groups; any
other string passes through `replace` unchanged and is then split at
`-` and fed to `parseInt` (so `"2020-1-1-2-3-4"` is a valid date and a
digit-free or short piece list gives an `Invalid Date`). -/
def revisionTimestampDate (ts : String) : Option Int :=
  match parseRevisionTimestamp ts with
  | some (y, m, d, h, i, s) =>
    some (jsDateUTC (Int.ofNat y) (Int.ofNat m - 1) (Int.ofNat d) (Int.ofNat h)
      (Int.ofNat i) (Int.ofNat s))
  | none =>
    match dashPieceInt ts 0, dashPieceInt ts 1, dashPieceInt ts 2,
      dashPieceInt ts 3, dashPieceInt ts 4, dashPieceInt ts 5 with
    | some y, some m, some d, some h, some i, some s =>
      some (jsDateUTC y (m - 1) d h i s)
    | _, _, _, _, _, _ => none

/-- Optional fractional part `(\.\d+)?` matched against the whole rest. -/
def fracPart (l : List Char) : Bool :=
  l.isEmpty ||
    (match l with
     | '.' :: ds => !ds.isEmpty && ds.all Char.isDigit
     | _ => false)

/-- Optional zero fraction `(\.0+)?` matched against the whole rest. -/
def zeroFracPart (l : List Char) : Bool :=
  l.isEmpty ||
    (match l with
     | '.' :: ds => !ds.isEmpty && ds.all (· = '0')
     | _ => false)

/-- Latitude body `([1-8]?\d(\.\d+)?|90(\.0+)?)` matched against the
whole rest. -/
def latBody (l : List Char) : Bool :=
  (match l with
   | '9' :: '0' :: rest => zeroFracPart rest
   | _ => false) ||
  (match l with
   | c :: rest =>
     (c.isDigit && fracPart rest) ||
       (match rest with
        | d :: rest2 => ('1' ≤ c && c ≤ '8') && d.isDigit && fracPart rest2
        | [] => false)
   | [] => false)

/-- Longitude body `(180(\.0+)?|((1[0-7]\d)|([1-9]?\d))(\.\d+)?)` matched
against the whole rest. -/
def lonBody (l : List Char) : Bool :=
  (match l with
   | '1' :: '8' :: '0' :: rest => zeroFracPart rest
   | _ => false) ||
  (match l with
   | '1' :: c :: d :: rest => ('0' ≤ c && c ≤ '7') && d.isDigit && fracPart rest
   | _ => false) ||
  (match l with
   | c :: rest =>
     (c.isDigit && fracPart rest) ||
       (match rest with
        | d :: rest2 => ('1' ≤ c && c ≤ '9') && d.isDigit && fracPart rest2
        | [] => false)
   | [] => false)

/-- Optional sign `[-+]?`. -/
def stripSign : List Char → List Char
  | [] => []
  | c :: cs => if c = '-' || c = '+' then cs else c :: cs

/-- Model of the geographic-point test
`/^[-+]?([1-8]?\d(\.\d+)?|90(\.0+)?),\s*[-+]?(180(\.0+)?|((1[0-7]\d)|([1-9]?\d))(\.\d+)?)$/.test(rest)`
of `WIKIARTICLESAROUND`: the string must consist of exactly one comma
separating a latitude and (after optional whitespace and sign) a
longitude. -/
def isLatLonPoint (s : String) : Bool :=
  match jsSplit ',' s.toList with
  | [lat, lon] =>
    latBody (stripSign lat) && lonBody (stripSign (lon.dropWhile jsIsWhitespace))
  | _ => false

/-- Insertion-ordered update `m[k] = v` on a JavaScript object used as a
map: an existing key keeps its position and gets the new value, a new
key is appended. -/
def objSet (m : List (String × String)) (k v : String) : List (String × String) :=
  if m.any (fun p => p.1 = k) then m.map (fun p => if p.1 = k then (k, v) else p)
  else m ++ [(k, v)]

/-- The numeric value of a digit string (most significant digit
first). -/
def keyNum (s : String) : Nat :=
  s.toList.foldl (fun n c => 10 * n + (c.toNat - 48)) 0

/-- Whether a character list is the canonical decimal notation of a
natural number: non-empty, all digits, no leading zero except for the
single digit `0` itself. -/
def isCanonicalDigits : List Char → Bool
  | [] => false
  | [c] => c.isDigit
  | c :: rest => c.isDigit && !(c == '0') && rest.all (fun d => d.isDigit)

/-- Whether a string is a JavaScript array-index property key: the
canonical decimal notation of a natural number below `2^32 - 1`.
`Object.keys` lists such keys before all other string keys. -/
def isArrayIndexKey (s : String) : Bool :=
  isCanonicalDigits s.toList && Nat.blt (keyNum s) 4294967295

/-- Numeric comparison of array-index keys, the order in which
`Object.keys` lists them. -/
def keyNumLe (a b : String) : Prop := keyNum a ≤ keyNum b

instance : DecidableRel keyNumLe :=
  fun a b => inferInstanceAs (Decidable (keyNum a ≤ keyNum b))

instance : IsTotal String keyNumLe := ⟨fun a b => Nat.le_total (keyNum a) (keyNum b)⟩

instance : IsTrans String keyNumLe := ⟨fun _ _ _ => Nat.le_trans⟩

/-- The distinct elements of a list in order of first occurrence (the
own-property insertion order of the object `temp` below). -/
def objKeysInsertionOrder (l : List String) : List String :=
  l.foldl (fun acc k => if k ∈ acc then acc else acc ++ [k]) []

/-- Model of the deduplication idiom
`var temp = {}; list.forEach(function(x) { temp[x] = true; });
Object.keys(temp)`.  `Object.keys` lists the integer-like keys
(canonical array indices) first in ascending numeric order, then the
remaining string keys in property insertion order, i.e. order of first
occurrence in the input list. -/
def objKeysDedup (l : List String) : List String :=
  ((objKeysInsertionOrder l).filter isArrayIndexKey).insertionSort keyNumLe ++
    (objKeysInsertionOrder l).filter (fun k => !(isArrayIndexKey k))

/-- Request of `WIKISYNONYMS` (Wikipedia.gs.js lines 53-61). -/
def wikisynonymsRequest (language title opt_namespaces : String) : Request :=
  { path := "https://" ++ language ++ ".wikipedia.org/w/api.php"
    params := [("action", "query"),
               ("blnamespace", encOr opt_namespaces "0"),
               ("list", "backlinks"),
               ("blfilterredir", "redirects"),
               ("bllimit", "max"),
               ("format", "xml"),
               ("bltitle", encodeURIComponent (jsSpacesToUnderscores title))] }

/-- Model of `WIKISYNONYMS` (Wikipedia.gs.js lines 34-74).  The payload
carries the `title` attribute of each `bl` element of the response. -/
def WIKISYNONYMS (article opt_namespaces : String)
    (fetch : Request → Except Unit (List String)) : JsVal :=
  if article = "" then .str "" else
  let language := (parseLocator article).1
  let title := (parseLocator article).2
  if title = "" then .str "" else
  match fetch (wikisynonymsRequest language title opt_namespaces) with
  | .error _ => resultsOrEmpty []
  | .ok entries => resultsOrEmpty (entries.map fun t => Entry.cell (.str t))

/-- One `gs` element of a geosearch response: the `title`, `lat`, `lon`
and `dist` attributes read by `WIKIARTICLESAROUND`. -/
structure GeoEntry where
  title : String
  lat : String
  lon : String
  dist : String
deriving DecidableEq, Repr

/-- Request of `WIKIARTICLESAROUND` for a title (Wikipedia.gs.js lines
127-134 and 142-143). -/
def wikiarticlesaroundTitleRequest (language title : String) (radius : Int)
    (opt_namespaces : String) : Request :=
  { path := "https://" ++ language ++ ".wikipedia.org/w/api.php"
    params := [("action", "query"),
               ("list", "geosearch"),
               ("format", "xml"),
               ("gslimit", "max"),
               ("gsradius", toString radius),
               ("gspage", encodeURIComponent (jsSpacesToUnderscores title)),
               ("gsnamespace", encOr opt_namespaces "0")] }

/-- Request of `WIKIARTICLESAROUND` for a geographic point
(Wikipedia.gs.js lines 127, 135-143). -/
def wikiarticlesaroundPointRequest (language latitude longitude : String) (radius : Int)
    (opt_namespaces : String) : Request :=
  { path := "https://" ++ language ++ ".wikipedia.org/w/api.php"
    params := [("action", "query"),
               ("list", "geosearch"),
               ("format", "xml"),
               ("gslimit", "max"),
               ("gsradius", toString radius),
               ("gscoord", latitude ++ "%7C" ++ longitude),
               ("gsnamespace", encOr opt_namespaces "0")] }

/-- Model of `WIKIARTICLESAROUND` (Wikipedia.gs.js lines 86-163).  When
the part after the language prefix matches the latitude/longitude
pattern it is split at the comma into coordinates, otherwise it is the
title; with neither a title nor coordinates the source executes a bare
`return;` inside the try block, i.e. returns `undefined`. -/
def WIKIARTICLESAROUND (articleOrPoint : String) (radius : Int)
    (opt_includeDistance : Bool) (opt_namespaces : String)
    (fetch : Request → Except Unit (List GeoEntry)) : JsVal :=
  if articleOrPoint = "" then .str "" else
  let language := (parseLocator articleOrPoint).1
  let rest := (parseLocator articleOrPoint).2
  let handle : Except Unit (List GeoEntry) → JsVal := fun response =>
    match response with
    | .error _ => resultsOrEmpty []
    | .ok entries =>
      resultsOrEmpty (entries.map fun e =>
        if opt_includeDistance then Entry.row [.str e.title, .str e.lat, .str e.lon, .str e.dist]
        else Entry.row [.str e.title, .str e.lat, .str e.lon])
  if isLatLonPoint rest then
    let pieces := jsSplit ',' rest.toList
    let latitude := String.mk (pieces.getD 0 [])
    let longitude := String.mk (pieces.getD 1 [])
    handle (fetch (wikiarticlesaroundPointRequest language latitude longitude radius opt_namespaces))
  else if rest = "" then .undef
  else handle (fetch (wikiarticlesaroundTitleRequest language rest radius opt_namespaces))

/-- Request of `WIKITRANSLATE` (Wikipedia.gs.js lines 207-212). -/
def wikitranslateRequest (language title : String) : Request :=
  { path := "https://" ++ language ++ ".wikipedia.org/w/api.php"
    params := [("action", "query"),
               ("prop", "langlinks"),
               ("format", "xml"),
               ("lllimit", "max"),
               ("titles", encodeURIComponent (jsSpacesToUnderscores title))] }

/-- Model of `WIKITRANSLATE` (Wikipedia.gs.js lines 174-243).  The
payload carries the `lang` attribute and text of each `ll` element.
Scalar `opt_targetLanguages` arguments are already wrapped into a
one-element list by the `Array.isArray` normalization, so the model
takes a list.  Before the fetch the target languages are seeded with
the input title; a fetch/parse failure therefore leaves exactly that
prefill in `results`.  `returnAsObject` is the internal
`_opt_returnAsObject` parameter used by `WIKIEXPAND`. -/
def WIKITRANSLATE (article : String) (opt_targetLanguages : List String)
    (opt_skipHeader returnAsObject : Bool)
    (fetch : Request → Except Unit (List (String × String))) : JsVal :=
  if article = "" then .str "" else
  let targets := objKeysDedup opt_targetLanguages
  let language := (parseLocator article).1
  let title := (parseLocator article).2
  if title = "" then .str "" else
  let prefill := targets.foldl (fun m tl =>
    if tl = "" then m else objSet m tl (jsUnderscoresToSpaces title)) []
  let results :=
    match fetch (wikitranslateRequest language title) with
    | .error _ => prefill
    | .ok entries =>
      let targetLanguagesSet := !targets.isEmpty
      let afterEntries := entries.foldl (fun m e =>
        if targetLanguagesSet && !(targets.contains e.1) then m else objSet m e.1 e.2) prefill
      objSet afterEntries language (jsUnderscoresToSpaces title)
  if returnAsObject then .obj results
  else
    resultsOrEmpty (results.map fun p =>
      if opt_skipHeader then Entry.cell (.str p.2) else Entry.row [.str p.1, .str p.2])

/-- Model of `[x].concat(synonyms)` in `WIKIEXPAND`: concatenating the
`''` sentinel appends it as a single element, concatenating an array
appends its elements.  `WIKISYNONYMS` only ever returns `''` or a flat
array of strings, so the remaining constructors cannot occur there. -/
def jsConcatCells (l : List Cell) (v : JsVal) : List Cell :=
  match v with
  | .str s => l ++ [.str s]
  | .arr entries => l ++ entries.map (fun e => match e with | .cell c => c | .row _ => .str "")
  | .obj _ => l
  | .undef => l

/-- Model of `WIKIEXPAND` (Wikipedia.gs.js lines 253-291).  It fans out:
one langlinks lookup through `WIKITRANSLATE` (as an object), then one
`WIKISYNONYMS` lookup per translation.  Note that the final result is
returned as-is, without the `results.length > 0 ? results : ''`
guard used elsewhere. -/
def WIKIEXPAND (article : String) (opt_targetLanguages : List String)
    (fetchTranslate : Request → Except Unit (List (String × String)))
    (fetchSynonyms : Request → Except Unit (List String)) : JsVal :=
  if article = "" then .str "" else
  let title := (parseLocator article).2
  if title = "" then .str "" else
  let targets := objKeysDedup opt_targetLanguages
  match WIKITRANSLATE article targets false true fetchTranslate with
  | .obj translations =>
    .arr (translations.map fun p =>
      Entry.row ([Cell.str p.1] ++
        jsConcatCells [Cell.str p.2] (WIKISYNONYMS (p.1 ++ ":" ++ p.2) "" fetchSynonyms)))
  | _ => .arr []

/-- Request of `WIKICOMMONSLINK` (Wikipedia.gs.js lines 319-324). -/
def wikicommonslinkRequest (language title : String) : Request :=
  { path := "https://" ++ language ++ ".wikipedia.org/w/api.php"
    params := [("action", "query"),
               ("prop", "imageinfo"),
               ("iiprop", "url"),
               ("format", "xml"),
               ("titles", "File:" ++ encodeURIComponent (jsSpacesToUnderscores title))] }

/-- Model of `WIKICOMMONSLINK` (Wikipedia.gs.js lines 300-335).  The
payload carries the `url` attribute of the single `ii` element. -/
def WIKICOMMONSLINK (fileName : String)
    (fetch : Request → Except Unit String) : JsVal :=
  if fileName = "" then .str "" else
  let language := (parseLocator fileName).1
  let title := (parseLocator fileName).2
  if title = "" then .str "" else
  match fetch (wikicommonslinkRequest language title) with
  | .error _ => resultsOrEmpty []
  | .ok fileUrl => resultsOrEmpty [Entry.cell (.str fileUrl)]

/-- Request of `WIKICATEGORYMEMBERS` and `WIKISUBCATEGORIES`
(Wikipedia.gs.js lines 364-373 and 415-424); they differ only in the
`cmnamespace` default. -/
def wikicategorymembersRequest (language title opt_namespaces nsDefault : String) : Request :=
  { path := "https://" ++ language ++ ".wikipedia.org/w/api.php"
    params := [("action", "query"),
               ("list", "categorymembers"),
               ("cmlimit", "max"),
               ("cmprop", "title"),
               ("cmtype", "subcat%7Cpage"),
               ("format", "xml"),
               ("cmnamespace", encOr opt_namespaces nsDefault),
               ("cmtitle", encodeURIComponent (jsSpacesToUnderscores title))] }

/-- Model of `WIKICATEGORYMEMBERS` (Wikipedia.gs.js lines 345-386).
Unlike the other functions its locator is split only when the string
contains more than one colon (`parseLocatorMulti`). -/
def WIKICATEGORYMEMBERS (category opt_namespaces : String)
    (fetch : Request → Except Unit (List String)) : JsVal :=
  if category = "" then .str "" else
  let language := (parseLocatorMulti category).1
  let title := (parseLocatorMulti category).2
  if title = "" then .str "" else
  match fetch (wikicategorymembersRequest language title opt_namespaces "0") with
  | .error _ => resultsOrEmpty []
  | .ok entries => resultsOrEmpty (entries.map fun t => Entry.cell (.str t))

/-- Model of `WIKISUBCATEGORIES` (Wikipedia.gs.js lines 396-437);
identical to `WIKICATEGORYMEMBERS` except for the namespace default
`'14'`. -/
def WIKISUBCATEGORIES (category opt_namespaces : String)
    (fetch : Request → Except Unit (List String)) : JsVal :=
  if category = "" then .str "" else
  let language := (parseLocatorMulti category).1
  let title := (parseLocatorMulti category).2
  if title = "" then .str "" else
  match fetch (wikicategorymembersRequest language title opt_namespaces "14") with
  | .error _ => resultsOrEmpty []
  | .ok entries => resultsOrEmpty (entries.map fun t => Entry.cell (.str t))

/-- Request of `WIKICATEGORIES` (Wikipedia.gs.js lines 465-470). -/
def wikicategoriesRequest (language title : String) : Request :=
  { path := "https://" ++ language ++ ".wikipedia.org/w/api.php"
    params := [("action", "query"),
               ("prop", "categories"),
               ("format", "xml"),
               ("cllimit", "max"),
               ("titles", encodeURIComponent (jsSpacesToUnderscores title))] }

/-- Model of `WIKICATEGORIES` (Wikipedia.gs.js lines 446-483). -/
def WIKICATEGORIES (article : String)
    (fetch : Request → Except Unit (List String)) : JsVal :=
  if article = "" then .str "" else
  let language := (parseLocator article).1
  let title := (parseLocator article).2
  if title = "" then .str "" else
  match fetch (wikicategoriesRequest language title) with
  | .error _ => resultsOrEmpty []
  | .ok entries => resultsOrEmpty (entries.map fun t => Entry.cell (.str t))

/-- Request of `WIKIINBOUNDLINKS` (Wikipedia.gs.js lines 512-519). -/
def wikiinboundlinksRequest (language title opt_namespaces : String) : Request :=
  { path := "https://" ++ language ++ ".wikipedia.org/w/api.php"
    params := [("action", "query"),
               ("list", "backlinks"),
               ("bllimit", "max"),
               ("blnamespace", encOr opt_namespaces "0"),
               ("format", "xml"),
               ("bltitle", encodeURIComponent (jsSpacesToUnderscores title))] }

/-- Model of `WIKIINBOUNDLINKS` (Wikipedia.gs.js lines 493-532). -/
def WIKIINBOUNDLINKS (article opt_namespaces : String)
    (fetch : Request → Except Unit (List String)) : JsVal :=
  if article = "" then .str "" else
  let language := (parseLocator article).1
  let title := (parseLocator article).2
  if title = "" then .str "" else
  match fetch (wikiinboundlinksRequest language title opt_namespaces) with
  | .error _ => resultsOrEmpty []
  | .ok entries => resultsOrEmpty (entries.map fun t => Entry.cell (.str t))

/-- Request of `WIKIOUTBOUNDLINKS` (Wikipedia.gs.js lines 561-568). -/
def wikioutboundlinksRequest (language title opt_namespaces : String) : Request :=
  { path := "https://" ++ language ++ ".wikipedia.org/w/api.php"
    params := [("action", "query"),
               ("prop", "links"),
               ("plnamespace", encOr opt_namespaces "0"),
               ("format", "xml"),
               ("pllimit", "max"),
               ("titles", encodeURIComponent (jsSpacesToUnderscores title))] }

/-- Model of `WIKIOUTBOUNDLINKS` (Wikipedia.gs.js lines 542-581). -/
def WIKIOUTBOUNDLINKS (article opt_namespaces : String)
    (fetch : Request → Except Unit (List String)) : JsVal :=
  if article = "" then .str "" else
  let language := (parseLocator article).1
  let title := (parseLocator article).2
  if title = "" then .str "" else
  match fetch (wikioutboundlinksRequest language title opt_namespaces) with
  | .error _ => resultsOrEmpty []
  | .ok entries => resultsOrEmpty (entries.map fun t => Entry.cell (.str t))

/-- Substring test: JavaScript `s.indexOf(needle) > -1` on strings. -/
def listInfix (needle haystack : List Char) : Bool :=
  (List.range (haystack.length + 1)).any fun i =>
    ((haystack.drop i).take needle.length) == needle

/-- Model of `outboundLinks.indexOf(link) > -1` in `WIKIMUTUALLINKS`:
on an array this is element membership; on the `''` sentinel (a string)
`indexOf` is the substring search of `String.prototype`. -/
def jsIndexOfFound (v : JsVal) (e : Entry) : Bool :=
  match v with
  | .arr entries => entries.contains e
  | .str s =>
    match e with
    | .cell (.str x) => listInfix x.toList s.toList
    | _ => false
  | _ => false

/-- Model of `WIKIMUTUALLINKS` (Wikipedia.gs.js lines 591-599).  It has
no try/catch of its own and no empty-result guard: it filters whatever
`WIKIINBOUNDLINKS` returned.  When that is the `''` sentinel (a string,
which has no `.filter` method) the call raises an uncaught `TypeError`,
modelled as `.error ()`. -/
def WIKIMUTUALLINKS (article opt_namespaces : String)
    (fetchInbound fetchOutbound : Request → Except Unit (List String)) :
    Except Unit JsVal :=
  let inboundLinks := WIKIINBOUNDLINKS article opt_namespaces fetchInbound
  let outboundLinks := WIKIOUTBOUNDLINKS article opt_namespaces fetchOutbound
  match inboundLinks with
  | .arr entries => .ok (.arr (entries.filter fun link => jsIndexOfFound outboundLinks link))
  | _ => .error ()

/-- Request of `WIKIGEOCOORDINATES` (Wikipedia.gs.js lines 627-633). -/
def wikigeocoordinatesRequest (language title : String) : Request :=
  { path := "https://" ++ language ++ ".wikipedia.org/w/api.php"
    params := [("action", "query"),
               ("prop", "coordinates"),
               ("format", "xml"),
               ("colimit", "max"),
               ("coprimary", "primary"),
               ("titles", encodeURIComponent (jsSpacesToUnderscores title))] }

/-- Model of `WIKIGEOCOORDINATES` (Wikipedia.gs.js lines 608-646).  The
payload carries the `lat` and `lon` attributes of the `co` element. -/
def WIKIGEOCOORDINATES (article : String)
    (fetch : Request → Except Unit (String × String)) : JsVal :=
  if article = "" then .str "" else
  let language := (parseLocator article).1
  let title := (parseLocator article).2
  if title = "" then .str "" else
  match fetch (wikigeocoordinatesRequest language title) with
  | .error _ => resultsOrEmpty []
  | .ok co => resultsOrEmpty [Entry.row [.str co.1, .str co.2]]

/-- Request of `WIKILINKSEARCH` (Wikipedia.gs.js lines 676-685). -/
def wikilinksearchRequest (language title opt_protocol opt_namespaces : String) : Request :=
  { path := "https://" ++ language ++ ".wikipedia.org/w/api.php"
    params := [("action", "query"),
               ("format", "xml"),
               ("list", "exturlusage"),
               ("eulimit", "max"),
               ("euprop", "title%7Curl"),
               ("euprotocol", orDefault opt_protocol "http"),
               ("euquery", encodeURIComponent title),
               ("eunamespace", encOr opt_namespaces "0")] }

/-- Model of `WIKILINKSEARCH` (Wikipedia.gs.js lines 657-699).  The
payload carries the `title` and `url` attributes of each `eu`
element. -/
def WIKILINKSEARCH (linkPattern opt_protocol opt_namespaces : String)
    (fetch : Request → Except Unit (List (String × String))) : JsVal :=
  if linkPattern = "" then .str "" else
  let language := (parseLocator linkPattern).1
  let title := (parseLocator linkPattern).2
  if title = "" then .str "" else
  match fetch (wikilinksearchRequest language title opt_protocol opt_namespaces) with
  | .error _ => resultsOrEmpty []
  | .ok entries => resultsOrEmpty (entries.map fun e => Entry.row [.str e.1, .str e.2])

/-- Datavalue of a Wikidata main snak.  Each constructor carries the
field the `simpifyStatement` switch reads for the corresponding
datatype (`value`, `value.text`, `value['numeric-id']`, `value.time`,
`value.amount`); Wikidata always pairs a datatype with its matching
value shape, and only such payloads are representable here. -/
inductive WdDatavalue where
  | plain : String → WdDatavalue
  | mono : String → WdDatavalue
  | item : Nat → WdDatavalue
  | time : String → WdDatavalue
  | quantity : String → WdDatavalue
deriving DecidableEq, Repr

/-- Main snak of a Wikidata statement: its `datatype` string and its
`datavalue` (which may be missing). -/
structure WdSnak where
  datatype : String
  datavalue : Option WdDatavalue
deriving DecidableEq, Repr

/-- A Wikidata statement; `mainsnak` may be null. -/
structure WdStatement where
  mainsnak : Option WdSnak
deriving DecidableEq, Repr

/-- Model of `/^Q\d+$/.test(s)`. -/
def isQidStr (s : String) : Bool :=
  match s.toList with
  | 'Q' :: ds => !ds.isEmpty && ds.all Char.isDigit
  | _ => false

/-- Model of `/^first$/i.test(s)` and `/^all$/i.test(s)`. -/
def jsTestCaseInsensitive (pattern s : String) : Bool :=
  s.toLower == pattern

/-- Model of `simpifyStatement` (Wikipedia.gs.js lines 735-765) without
the `qids.push` side effect: the scalar value of a statement, or `none`
for a null mainsnak, a missing datavalue, or an unknown datatype. -/
def simpifyStatement (statement : WdStatement) : Option String :=
  match statement.mainsnak with
  | none => none
  | some mainsnak =>
    match mainsnak.datavalue with
    | none => none
    | some datavalue =>
      if mainsnak.datatype = "string" ∨ mainsnak.datatype = "commonsMedia" ∨
          mainsnak.datatype = "url" ∨ mainsnak.datatype = "math" ∨
          mainsnak.datatype = "external-id" then
        match datavalue with
        | .plain v => some v
        | _ => none
      else if mainsnak.datatype = "monolingualtext" then
        match datavalue with
        | .mono t => some t
        | _ => none
      else if mainsnak.datatype = "wikibase-item" then
        match datavalue with
        | .item n => some ("Q" ++ toString n)
        | _ => none
      else if mainsnak.datatype = "time" then
        match datavalue with
        | .time t => some t
        | _ => none
      else if mainsnak.datatype = "quantity" then
        match datavalue with
        | .quantity a => some a
        | _ => none
      else none

/-- Qid collected by the `qids.push(qid)` side effect of
`simpifyStatement`: exactly the statements whose switch reaches the
`wikibase-item` case. -/
def statementQid (statement : WdStatement) : Option String :=
  match statement.mainsnak with
  | none => none
  | some mainsnak =>
    match mainsnak.datavalue with
    | none => none
    | some datavalue =>
      if mainsnak.datatype = "wikibase-item" then
        match datavalue with
        | .item n => some ("Q" ++ toString n)
        | _ => none
      else none

/-- Request of the claims lookup of `WIKIDATAFACTS` for a qid
(Wikipedia.gs.js lines 826-830). -/
def wikidatafactsQidRequest (title : String) : Request :=
  { path := "https://www.wikidata.org/w/api.php"
    params := [("action", "wbgetentities"),
               ("format", "json"),
               ("props", "claims"),
               ("ids", title)] }

/-- Request of the claims lookup of `WIKIDATAFACTS` for a sitelink title
(Wikipedia.gs.js lines 832-837). -/
def wikidatafactsTitleRequest (language title : String) : Request :=
  { path := "https://wikidata.org/w/api.php"
    params := [("action", "wbgetentities"),
               ("sites", language ++ "wiki"),
               ("format", "json"),
               ("props", "claims"),
               ("titles", encodeURIComponent (jsSpacesToUnderscores title))] }

/-- Request of one 50-id chunk of `getPropertyAndEntityLabels`
(Wikipedia.gs.js lines 774-779). -/
def wdLabelsRequest (chunk : List String) : Request :=
  { path := "https://www.wikidata.org/w/api.php"
    params := [("action", "wbgetentities"),
               ("languages", "en"),
               ("format", "json"),
               ("props", "labels"),
               ("ids", String.intercalate "%7C" chunk)] }

/-- Chunked label-fetch loop of `getPropertyAndEntityLabels`
(Wikipedia.gs.js lines 770-792).  The payload of one chunk maps each
returned entity id to its English label value; an id that is absent, or
whose label value is falsy, yields `labels[item] = false`, modelled as
`none`.  The single try/catch wraps the whole loop, so a failing chunk
aborts the loop and keeps the labels gathered so far.  The fuel
argument (initially the number of ids) bounds the recursion; every
iteration consumes at least one id, so it never runs out first. -/
def getLabelsGo (fetch : Request → Except Unit (List (String × String))) :
    Nat → List String → List (String × Option String) → List (String × Option String)
  | 0, _, labels => labels
  | _, [], labels => labels
  | fuel + 1, ids, labels =>
    let chunk := ids.take 50
    match fetch (wdLabelsRequest chunk) with
    | .error _ => labels
    | .ok entities =>
      getLabelsGo fetch fuel (ids.drop 50)
        (labels ++ chunk.map fun item =>
          (item, match entities.lookup item with
                 | some v => if v = "" then none else some v
                 | none => none))

/-- Model of `getPropertyAndEntityLabels` (Wikipedia.gs.js lines
767-797). -/
def getPropertyAndEntityLabels (propertiesAndEntities : List String)
    (fetch : Request → Except Unit (List (String × String))) :
    List (String × Option String) :=
  getLabelsGo fetch propertiesAndEntities.length propertiesAndEntities []

/-- Truthy label/value lookup `labels[x]`: the entry must be present,
not `false`, and a non-empty string. -/
def truthyLookup (labels : List (String × Option String)) (x : String) : Option String :=
  match labels.lookup x with
  | some (some v) => if v = "" then none else some v
  | _ => none

/-- Row built by `WIKIDATAFACTS` for one object value: `labels[qid]` for
a qid-shaped value, the value itself otherwise; pushed only when both
the property label and the value are truthy. -/
def wdFactRow (labels : List (String × Option String)) (label : String)
    (claimObject : String) : List Entry :=
  let value? :=
    if isQidStr claimObject then truthyLookup labels claimObject
    else if claimObject = "" then none else some claimObject
  match value? with
  | some value => [Entry.row [.str label, .str value]]
  | none => []

/-- Model of `WIKIDATAFACTS` (Wikipedia.gs.js lines 710-884).  The
claims payload is the `claims` object of the first returned entity:
property id to statement list, in key order.  Note that the
`opt_properties` filter is applied only to the list of property ids
whose labels are fetched; the row loop runs over all simplified claims,
and claims outside the filter are dropped only because their label is
missing. -/
def WIKIDATAFACTS (article opt_multiObjectMode : String) (opt_properties : List String)
    (fetchEntity : Request → Except Unit (List (String × List WdStatement)))
    (fetchLabels : Request → Except Unit (List (String × String))) : JsVal :=
  if article = "" then .str "" else
  let props := objKeysDedup opt_properties
  let language := (parseLocator article).1
  let title := (parseLocator article).2
  if title = "" then .str "" else
  let request :=
    if isQidStr title then wikidatafactsQidRequest title
    else wikidatafactsTitleRequest language title
  match fetchEntity request with
  | .error _ => resultsOrEmpty []
  | .ok claims =>
    let qids := claims.flatMap fun c => c.2.filterMap statementQid
    let simplifiedClaims := claims.map fun c => (c.1, c.2.filterMap simpifyStatement)
    let properties := simplifiedClaims.map Prod.fst
    let properties := if !props.isEmpty then properties.filter (fun p => props.contains p)
      else properties
    let labels := getPropertyAndEntityLabels (properties ++ qids) fetchLabels
    let rows := simplifiedClaims.flatMap fun c =>
      let vals := c.2
      match truthyLookup labels c.1 with
      | none => []
      | some label =>
        (if vals.length = 1 then wdFactRow labels label (vals.headD "") else []) ++
        (if (jsTestCaseInsensitive "first" opt_multiObjectMode ||
             jsTestCaseInsensitive "all" opt_multiObjectMode) && vals.length > 1 then
           vals.enum.flatMap fun iv =>
             if iv.1 > 0 && jsTestCaseInsensitive "first" opt_multiObjectMode then []
             else wdFactRow labels label iv.2
         else [])
    resultsOrEmpty rows

/-- One entry of a pageviews response: the `timestamp` and `views`
fields read by the `WIKIPAGEVIEWS` family. -/
structure PageviewsItem where
  timestamp : String
  views : Int
deriving DecidableEq, Repr

/-- Row built for one pageviews item: the decoded timestamp and the
view count. -/
def pageviewsRow (item : PageviewsItem) : Entry :=
  Entry.row [.date (timestamp10Date item.timestamp), .num item.views]

/-- Request of `WIKIPAGEVIEWS` (Wikipedia.gs.js lines 937-945), a
REST-style URL with no query parameters. -/
def wikipageviewsRequest (language title opt_start opt_end : String) : Request :=
  { path := "https://wikimedia.org/api/rest_v1/metrics/pageviews/per-article/" ++
      language ++ ".wikipedia/all-access/user/" ++
      encodeURIComponent (jsSpacesToUnderscores title) ++ "/daily/" ++
      opt_start ++ "/" ++ opt_end
    params := [] }

/-- Model of `WIKIPAGEVIEWS` (Wikipedia.gs.js lines 896-975).  The start
and end dates are taken as the strings interpolated into the URL;
absent arguments are defaulted from the current time by the source,
which a pure model cannot observe, so callers supply them explicitly.
With `opt_sumOnly` the function returns the one-element array
`[sum]` - also when the fetch failed or produced no items, in which
case the sum is 0; otherwise rows are built in payload order and then
reversed. -/
def WIKIPAGEVIEWS (article opt_start opt_end : String) (opt_sumOnly : Bool)
    (fetch : Request → Except Unit (List PageviewsItem)) : JsVal :=
  if article = "" then .str "" else
  let language := (parseLocator article).1
  let title := (parseLocator article).2
  if title = "" then .str "" else
  let items :=
    match fetch (wikipageviewsRequest language title opt_start opt_end) with
    | .error _ => []
    | .ok items => items
  if opt_sumOnly then .arr [Entry.cell (.num (items.foldl (fun s i => s + i.views) 0))]
  else resultsOrEmpty (items.map pageviewsRow).reverse

/-- Request of `WIKIPAGEVIEWSPERARTICLE` (Wikipedia.gs.js lines
1024-1032). -/
def wikipageviewsperarticleRequest (project article opt_access opt_agent
    opt_granularity opt_start opt_end : String) : Request :=
  { path := "https://wikimedia.org/api/rest_v1/metrics/pageviews/per-article/" ++
      project ++ "/" ++ orDefault opt_access "all-access" ++ "/" ++
      orDefault opt_agent "all-agents" ++ "/" ++
      encodeURIComponent (jsSpacesToUnderscores article) ++ "/" ++
      orDefault opt_granularity "daily" ++ "/" ++ opt_start ++ "/" ++ opt_end
    params := [] }

/-- Model of `WIKIPAGEVIEWSPERARTICLE` (Wikipedia.gs.js lines 991-1062).
The article is interpolated into the URL as given; no locator parsing
takes place. -/
def WIKIPAGEVIEWSPERARTICLE (project article opt_access opt_agent opt_granularity
    opt_start opt_end : String) (opt_sumOnly : Bool)
    (fetch : Request → Except Unit (List PageviewsItem)) : JsVal :=
  if project = "" then .str "" else
  if article = "" then .str "" else
  let items :=
    match fetch (wikipageviewsperarticleRequest project article opt_access opt_agent
        opt_granularity opt_start opt_end) with
    | .error _ => []
    | .ok items => items
  if opt_sumOnly then .arr [Entry.cell (.num (items.foldl (fun s i => s + i.views) 0))]
  else resultsOrEmpty (items.map pageviewsRow).reverse

/-- Request of `WIKIPAGEVIEWSAGGREGATE` (Wikipedia.gs.js lines
1105-1112). -/
def wikipageviewsaggregateRequest (project opt_access opt_agent opt_granularity
    opt_start opt_end : String) : Request :=
  { path := "https://wikimedia.org/api/rest_v1/metrics/pageviews/aggregate/" ++
      project ++ "/" ++ orDefault opt_access "all-access" ++ "/" ++
      orDefault opt_agent "all-agents" ++ "/" ++
      orDefault opt_granularity "daily" ++ "/" ++ opt_start ++ "/" ++ opt_end
    params := [] }

/-- Model of `WIKIPAGEVIEWSAGGREGATE` (Wikipedia.gs.js lines 1076-1134):
rows in payload order, then reversed. -/
def WIKIPAGEVIEWSAGGREGATE (project opt_access opt_agent opt_granularity
    opt_start opt_end : String)
    (fetch : Request → Except Unit (List PageviewsItem)) : JsVal :=
  if project = "" then .str "" else
  let items :=
    match fetch (wikipageviewsaggregateRequest project opt_access opt_agent
        opt_granularity opt_start opt_end) with
    | .error _ => []
    | .ok items => items
  resultsOrEmpty (items.map pageviewsRow).reverse

/-- Request of `WIKIPAGEVIEWSTOP` (Wikipedia.gs.js lines 1170-1179);
the date string is cut into year, month, day substrings. -/
def wikipageviewstopRequest (project opt_access opt_date : String) : Request :=
  { path := "https://wikimedia.org/api/rest_v1/metrics/pageviews/top/" ++
      project ++ "/" ++ orDefault opt_access "all-access" ++ "/" ++
      String.mk (opt_date.toList.take 4) ++ "/" ++
      String.mk ((opt_date.toList.drop 4).take 2) ++ "/" ++
      String.mk ((opt_date.toList.drop 6).take 2)
    params := [] }

/-- Model of `WIKIPAGEVIEWSTOP` (Wikipedia.gs.js lines 1145-1191).  The
payload carries the article/views pairs of `json.items[0].articles`. -/
def WIKIPAGEVIEWSTOP (project opt_access opt_date : String)
    (fetch : Request → Except Unit (List (String × Int))) : JsVal :=
  if project = "" then .str "" else
  match fetch (wikipageviewstopRequest project opt_access opt_date) with
  | .error _ => resultsOrEmpty []
  | .ok articles =>
    resultsOrEmpty (articles.map fun a =>
      Entry.row [.str (jsUnderscoresToSpaces a.1), .num a.2])

/-- One entry of a unique-devices response: the `timestamp` and
`devices` fields. -/
structure UniqueDevicesItem where
  timestamp : String
  devices : Int
deriving DecidableEq, Repr

/-- Request of `WIKIUNIQUEDEVICES` (Wikipedia.gs.js lines 1234-1239). -/
def wikiuniquedevicesRequest (project opt_accessSite opt_granularity
    opt_start opt_end : String) : Request :=
  { path := "https://wikimedia.org/api/rest_v1/metrics/unique-devices/" ++
      project ++ "/" ++ orDefault opt_accessSite "all-sites" ++ "/" ++
      orDefault opt_granularity "daily" ++ "/" ++ opt_start ++ "/" ++ opt_end
    params := [] }

/-- Model of `WIKIUNIQUEDEVICES` (Wikipedia.gs.js lines 1204-1260).
Rows are emitted in payload order; unlike its pageviews siblings this
function performs no `results.reverse()`. -/
def WIKIUNIQUEDEVICES (project opt_accessSite opt_granularity opt_start opt_end : String)
    (fetch : Request → Except Unit (List UniqueDevicesItem)) : JsVal :=
  if project = "" then .str "" else
  match fetch (wikiuniquedevicesRequest project opt_accessSite opt_granularity
      opt_start opt_end) with
  | .error _ => resultsOrEmpty []
  | .ok items =>
    resultsOrEmpty (items.map fun item =>
      Entry.row [.date (timestamp8Date item.timestamp), .num item.devices])

/-- One `rev` element of a revisions response: the `timestamp` and
`size` attributes read by `WIKIPAGEEDITS`. -/
structure RevisionEntry where
  timestamp : String
  size : Int
deriving DecidableEq, Repr

/-- Request of `WIKIPAGEEDITS` (Wikipedia.gs.js lines 1311-1319).  The
caller's end date is assigned to `rvstart` and the start date to
`rvend`, "Reversed on purpose due to confusing API name". -/
def wikipageeditsRequest (language title opt_start opt_end : String) : Request :=
  { path := "https://" ++ language ++ ".wikipedia.org/w/api.php"
    params := [("action", "query"),
               ("prop", "revisions"),
               ("rvprop", "size%7Ctimestamp"),
               ("rvlimit", "max"),
               ("format", "xml"),
               ("rvstart", opt_end),
               ("rvend", opt_start),
               ("titles", encodeURIComponent (jsSpacesToUnderscores title))] }

/-- Response processing of `WIKIPAGEEDITS` (Wikipedia.gs.js lines
1320-1345): one row per adjacent pair of revisions (the loop stops at
`length - 1` to have a successor for the size delta), in payload
order. -/
def wikipageeditsProcess (response : Except Unit (List RevisionEntry)) : JsVal :=
  match response with
  | .error _ => resultsOrEmpty []
  | .ok entries =>
    resultsOrEmpty ((entries.zip entries.tail).map fun p =>
      Entry.row [.date (revisionTimestampDate p.1.timestamp), .num (p.1.size - p.2.size)])

/-- Model of `WIKIPAGEEDITS` (Wikipedia.gs.js lines 1271-1346).  As with
`WIKIPAGEVIEWS`, the date arguments are taken as the strings
interpolated into the query. -/
def WIKIPAGEEDITS (article opt_start opt_end : String)
    (fetch : Request → Except Unit (List RevisionEntry)) : JsVal :=
  if article = "" then .str "" else
  let language := (parseLocator article).1
  let title := (parseLocator article).2
  if title = "" then .str "" else
  wikipageeditsProcess (fetch (wikipageeditsRequest language title opt_start opt_end))

/-- A search response: the result titles of `json.query.search` and the
`searchinfo.suggestion` when the response carries one. -/
structure SearchPayload where
  titles : List String
  suggestion : Option String
deriving DecidableEq, Repr

/-- Request of `WIKISEARCH` (Wikipedia.gs.js lines 1376-1385). -/
def wikisearchRequest (language title opt_namespaces : String) : Request :=
  { path := "https://" ++ language ++ ".wikipedia.org/w/api.php"
    params := [("action", "query"),
               ("format", "json"),
               ("list", "search"),
               ("srinfo", "suggestion"),
               ("srprop", ""),
               ("srlimit", "max"),
               ("srsearch", encodeURIComponent title),
               ("srnamespace", encOr opt_namespaces "0")] }

/-- Model of `WIKISEARCH` (Wikipedia.gs.js lines 1357-1406).  With
`opt_didYouMean` the first row carries the suggestion (or, absent a
`searchinfo`, the query title) and later rows carry `''`. -/
def WIKISEARCH (query : String) (opt_didYouMean : Bool) (opt_namespaces : String)
    (fetch : Request → Except Unit SearchPayload) : JsVal :=
  if query = "" then .str "" else
  let language := (parseLocator query).1
  let title := (parseLocator query).2
  if title = "" then .str "" else
  match fetch (wikisearchRequest language title opt_namespaces) with
  | .error _ => resultsOrEmpty []
  | .ok payload =>
    if opt_didYouMean then
      resultsOrEmpty (payload.titles.enum.map fun it =>
        if it.1 = 0 then Entry.row [.str it.2, .str (payload.suggestion.getD title)]
        else Entry.row [.str it.2, .str ""])
    else resultsOrEmpty (payload.titles.map fun t => Entry.cell (.str t))

/-- Request of `WIKIDATAQID` (Wikipedia.gs.js lines 1434-1441). -/
def wikidataqidRequest (language title : String) : Request :=
  { path := "https://" ++ language ++ ".wikipedia.org/w/api.php"
    params := [("action", "query"),
               ("format", "json"),
               ("formatversion", "2"),
               ("redirects", "1"),
               ("prop", "pageprops"),
               ("ppprop", "wikibase_item"),
               ("titles", encodeURIComponent title)] }

/-- Model of `WIKIDATAQID` (Wikipedia.gs.js lines 1415-1450).  The
payload is `json.query.pages[0].pageprops.wikibase_item` when present
and truthy. -/
def WIKIDATAQID (article : String)
    (fetch : Request → Except Unit (Option String)) : JsVal :=
  if article = "" then .str "" else
  let language := (parseLocator article).1
  let title := (parseLocator article).2
  if title = "" then .str "" else
  match fetch (wikidataqidRequest language title) with
  | .error _ => resultsOrEmpty []
  | .ok none => resultsOrEmpty []
  | .ok (some item) => resultsOrEmpty [Entry.cell (.str item)]

/-- Target-language normalization shared by `WIKIDATALABELS` and
`WIKIDATADESCRIPTIONS` (Wikipedia.gs.js lines 1467-1475): default to
`[DEFAULT_LANGUAGE]` when empty, and to no restriction when the list is
exactly `['all']`. -/
def wikidataTargetLanguages (opt_targetLanguages : List String) : List String :=
  let l := if opt_targetLanguages.isEmpty then [DEFAULT_LANGUAGE] else opt_targetLanguages
  if l = ["all"] then [] else l

/-- Request of `WIKIDATALABELS` / `WIKIDATADESCRIPTIONS`
(Wikipedia.gs.js lines 1476-1482 and 1520-1526); `props` is `labels` or
`descriptions`. -/
def wikidatalabelsRequest (props qid : String) (targetLanguages : List String) : Request :=
  { path := "https://www.wikidata.org/w/api.php"
    params := [("format", "json"),
               ("action", "wbgetentities"),
               ("props", props),
               ("ids", qid)] ++
      (if !targetLanguages.isEmpty then
         [("languages", String.intercalate "%7C" targetLanguages)]
       else []) }

/-- Shared response processing of `WIKIDATALABELS` and
`WIKIDATADESCRIPTIONS` (Wikipedia.gs.js lines 1484-1489 and 1528-1533):
the payload maps language codes to values, and rows are emitted with
the language keys sorted (`Object.keys(labels).sort()`). -/
def wikidataLabelRows (labels : List (String × String)) : List Entry :=
  ((labels.map Prod.fst).mergeSort (fun a b => decide (a ≤ b))).map fun language =>
    Entry.row [.str language, .str ((labels.lookup language).getD "")]

/-- Model of `WIKIDATALABELS` (Wikipedia.gs.js lines 1460-1494). -/
def WIKIDATALABELS (qid : String) (opt_targetLanguages : List String)
    (fetch : Request → Except Unit (List (String × String))) : JsVal :=
  if qid = "" then .str "" else
  let targets := wikidataTargetLanguages opt_targetLanguages
  match fetch (wikidatalabelsRequest "labels" qid targets) with
  | .error _ => resultsOrEmpty []
  | .ok labels => resultsOrEmpty (wikidataLabelRows labels)

/-- Model of `WIKIDATADESCRIPTIONS` (Wikipedia.gs.js lines 1504-1538). -/
def WIKIDATADESCRIPTIONS (qid : String) (opt_targetLanguages : List String)
    (fetch : Request → Except Unit (List (String × String))) : JsVal :=
  if qid = "" then .str "" else
  let targets := wikidataTargetLanguages opt_targetLanguages
  match fetch (wikidatalabelsRequest "descriptions" qid targets) with
  | .error _ => resultsOrEmpty []
  | .ok descriptions => resultsOrEmpty (wikidataLabelRows descriptions)

/-- A Quarry result payload: the `headers` list and the `rows` lists of
the latest run. -/
structure QuarryPayload where
  headers : List Cell
  rows : List (List Cell)
deriving DecidableEq, Repr

/-- Request of `WIKIQUARRY` (Wikipedia.gs.js lines 1554-1555). -/
def wikiquarryRequest (queryId : Nat) : Request :=
  { path := "https://quarry.wmflabs.org/query/" ++ toString queryId ++
      "/result/latest/0/json"
    params := [] }

/-- Model of `WIKIQUARRY` (Wikipedia.gs.js lines 1547-1563).  The query
id is a number; `0` is falsy and rejected like a missing argument.  The
headers become row 0 and the result rows follow. -/
def WIKIQUARRY (queryId : Nat)
    (fetch : Request → Except Unit QuarryPayload) : JsVal :=
  if queryId = 0 then .str "" else
  match fetch (wikiquarryRequest queryId) with
  | .error _ => resultsOrEmpty []
  | .ok payload =>
    resultsOrEmpty (Entry.row payload.headers :: payload.rows.map Entry.row)

/-- Request of `GOOGLESUGGEST` (Wikipedia.gs.js lines 1591-1594). -/
def googlesuggestRequest (language title : String) : Request :=
  { path := "https://suggestqueries.google.com/complete/search"
    params := [("output", "toolbar"),
               ("hl", language),
               ("q", encodeURIComponent title)] }

/-- Model of `GOOGLESUGGEST` (Wikipedia.gs.js lines 1572-1607).  The
payload carries the suggestion texts. -/
def GOOGLESUGGEST (query : String)
    (fetch : Request → Except Unit (List String)) : JsVal :=
  if query = "" then .str "" else
  let language := (parseLocator query).1
  let title := (parseLocator query).2
  if title = "" then .str "" else
  match fetch (googlesuggestRequest language title) with
  | .error _ => resultsOrEmpty []
  | .ok entries => resultsOrEmpty (entries.map fun t => Entry.cell (.str t))

/-- A value is either the `''` "no data" sentinel or a non-empty
table. -/
def nonEmptyTableOrSentinel (v : JsVal) : Prop :=
  v = .str "" ∨ ∃ rows, v = .arr rows ∧ rows ≠ []

/-- Date carried by a result row whose first cell is a date (the shape
of all date-range rows); `none` for any other entry. -/
def rowDateOf (e : Entry) : Option Int :=
  match e with
  | .row (Cell.date d :: _) => d
  | _ => none

/-- Two results that agree up to the order of their rows (or object
entries); all other values must be equal. -/
def JsValPerm (v1 v2 : JsVal) : Prop :=
  match v1, v2 with
  | .arr r1, .arr r2 => r1.Perm r2
  | .obj m1, .obj m2 => m1.Perm m2
  | _, _ => v1 = v2

/-! ### Helper lemmas -/

theorem resultsOrEmpty_spec (l : List Entry) :
    resultsOrEmpty l = .str "" ∨ (resultsOrEmpty l = .arr l ∧ l ≠ []) := by
  cases l with
  | nil => left; rfl
  | cons a t => right; exact ⟨by simp [resultsOrEmpty], by simp⟩

theorem nonEmptyTableOrSentinel_resultsOrEmpty (l : List Entry) :
    nonEmptyTableOrSentinel (resultsOrEmpty l) := by
  rcases resultsOrEmpty_spec l with h | ⟨h, hne⟩
  · exact Or.inl h
  · exact Or.inr ⟨l, h, hne⟩

theorem resultsOrEmpty_eq_arr {l rows : List Entry}
    (h : resultsOrEmpty l = .arr rows) : l = rows := by
  rcases resultsOrEmpty_spec l with h' | ⟨h', _⟩ <;> rw [h'] at h
  · cases h
  · exact (JsVal.arr.injEq _ _).mp h.symm |>.symm

theorem takeWhile_eq_self_of_all {α : Type} (p : α → Bool) :
    ∀ l : List α, l.all p = true → l.takeWhile p = l := by
  intro l
  induction l with
  | nil => intro _; rfl
  | cons a t ih =>
    intro h
    simp only [List.all_cons, Bool.and_eq_true] at h
    rw [List.takeWhile_cons, if_pos h.1, ih h.2]

theorem all_not_lineTerminator {s : String} (h : hasLineTerminator s = false) :
    s.toList.all (fun ch => !(isLineTerminator ch)) = true := by
  rw [hasLineTerminator] at h
  rw [List.all_eq_true]
  intro x hx
  rcases hb : isLineTerminator x with _ | _
  · simp [hb]
  · exact absurd (List.any_eq_true.mpr ⟨x, hx, hb⟩) (by rw [h]; simp)

theorem splitFirstColon_append (a b : List Char) (h : ':' ∉ a) :
    splitFirstColon (a ++ ':' :: b) =
      (a, some (b.takeWhile fun ch => !(isLineTerminator ch))) := by
  induction a with
  | nil => simp [splitFirstColon]
  | cons c cs ih =>
    have hc : ¬ c = ':' := fun e => h (e ▸ List.mem_cons_self c cs)
    have h' : ':' ∉ cs := fun m => h (List.mem_cons_of_mem _ m)
    simp [splitFirstColon, hc, ih h']

theorem toList_append_colon (lang subj : String) :
    (lang ++ ":" ++ subj).toList = lang.toList ++ ':' :: subj.toList := by
  show (lang ++ ":" ++ subj).data = lang.data ++ ':' :: subj.data
  simp [String.data_append]

theorem not_mem_of_jsHasColon_eq_false {s : String} (h : jsHasColon s = false) :
    ':' ∉ s.toList := by
  intro m
  rw [jsHasColon, List.contains_eq_any_beq] at h
  have : s.toList.any (fun c => ':' == c) = true :=
    List.any_eq_true.mpr ⟨':', m, by simp⟩
  rw [this] at h
  cases h

theorem parseLocator_append_capture (lang subj : String) (h : jsHasColon lang = false) :
    parseLocator (lang ++ ":" ++ subj) =
      (lang, String.mk (subj.toList.takeWhile fun ch => !(isLineTerminator ch))) := by
  have hmem : ':' ∉ lang.toList := not_mem_of_jsHasColon_eq_false h
  have hcol : jsHasColon (lang ++ ":" ++ subj) = true := by
    rw [jsHasColon, List.contains_eq_any_beq]
    exact List.any_eq_true.mpr ⟨':', by rw [toList_append_colon]; simp, by simp⟩
  rw [parseLocator, if_pos hcol, toList_append_colon, splitFirstColon_append _ _ hmem]
  rfl

theorem parseLocator_append (lang subj : String) (h : jsHasColon lang = false)
    (hterm : hasLineTerminator subj = false) :
    parseLocator (lang ++ ":" ++ subj) = (lang, subj) := by
  rw [parseLocator_append_capture lang subj h,
    takeWhile_eq_self_of_all _ _ (all_not_lineTerminator hterm)]
  rfl

theorem parseLocator_no_colon (s : String) (h : jsHasColon s = false) :
    parseLocator s = (DEFAULT_LANGUAGE, s) := by
  rw [parseLocator, if_neg]
  simp [h]

theorem parseLocatorMulti_no_colon (s : String) (h : jsHasColon s = false) :
    parseLocatorMulti s = (DEFAULT_LANGUAGE, s) := by
  have : colonCount s = 0 := by
    rw [colonCount, List.count_eq_zero]
    exact not_mem_of_jsHasColon_eq_false h
  rw [parseLocatorMulti, if_neg]
  omega

theorem en_prefix_ne_empty (s : String) : "en:" ++ s ≠ "" := by
  intro h
  have := congrArg String.data h
  simp [String.data_append] at this

theorem parseLocator_en_prepend (s : String) (hterm : hasLineTerminator s = false) :
    parseLocator ("en:" ++ s) = ("en", s) :=
  parseLocator_append "en" s rfl hterm

/-- C7: the edit-history query built by `WIKIPAGEEDITS` assigns the
caller's end date to the upstream parameter named `rvstart` and the
caller's start date to the parameter named `rvend`, for every article
locator and every start/end pair, and `WIKIPAGEEDITS` processes exactly
the response to that request. -/
theorem C7_wikipageedits_inverted_date_params :
    ∀ language title opt_start opt_end : String,
      ((wikipageeditsRequest language title opt_start opt_end).params.lookup "rvstart" =
        some opt_end) ∧
      ((wikipageeditsRequest language title opt_start opt_end).params.lookup "rvend" =
        some opt_start) ∧
      ∀ (article : String) (fetch : Request → Except Unit (List RevisionEntry)),
        article ≠ "" → (parseLocator article).2 ≠ "" →
        WIKIPAGEEDITS article opt_start opt_end fetch =
          wikipageeditsProcess (fetch (wikipageeditsRequest (parseLocator article).1
            (parseLocator article).2 opt_start opt_end)) := by
  intro language title opt_start opt_end
  refine ⟨rfl, rfl, ?_⟩
  intro article fetch h1 h2
  rw [WIKIPAGEEDITS, if_neg h1, if_neg h2]

theorem C7_witness :
    ("en:Berlin" ≠ "" ∧ (parseLocator "en:Berlin").2 ≠ "") ∧
    WIKIPAGEEDITS "en:Berlin" "2020-01-01T00:00:00" "2020-06-08T23:59:59"
        (fun _ => Except.error ()) =
      wikipageeditsProcess ((fun _ => Except.error ())
        (wikipageeditsRequest "en" "Berlin" "2020-01-01T00:00:00" "2020-06-08T23:59:59")) :=
  ⟨⟨by decide, by decide⟩,
    (C7_wikipageedits_inverted_date_params "en" "Berlin" "2020-01-01T00:00:00"
      "2020-06-08T23:59:59").2.2 "en:Berlin" _ (by decide) (by decide)⟩

/-- C6: for every article locator and namespace filter, whenever the
inbound and outbound lookups return tables, the `WIKIMUTUALLINKS`
result is exactly their set intersection: a title is in the mutual
result iff it is in both tables. -/
theorem C6_mutuallinks_is_intersection :
    ∀ (article opt_namespaces : String)
      (fetchInbound fetchOutbound : Request → Except Unit (List String))
      (l1 l2 : List Entry),
      WIKIINBOUNDLINKS article opt_namespaces fetchInbound = .arr l1 →
      WIKIOUTBOUNDLINKS article opt_namespaces fetchOutbound = .arr l2 →
      ∃ m, WIKIMUTUALLINKS article opt_namespaces fetchInbound fetchOutbound = .ok (.arr m) ∧
        ∀ e, e ∈ m ↔ (e ∈ l1 ∧ e ∈ l2) := by
  intro article opt_namespaces fetchInbound fetchOutbound l1 l2 h1 h2
  rw [WIKIMUTUALLINKS, h1, h2]
  refine ⟨_, rfl, ?_⟩
  intro e
  simp [List.mem_filter, jsIndexOfFound, List.contains, List.elem_iff]

theorem mem_of_jsHasColon {s : String} (h : jsHasColon s = true) : ':' ∈ s.toList := by
  rw [jsHasColon, List.contains_eq_any_beq] at h
  obtain ⟨x, hx, hbeq⟩ := List.any_eq_true.mp h
  have : x = ':' := (eq_of_beq hbeq).symm
  exact this ▸ hx

theorem wikiinboundlinks_en_prepend (s opt_namespaces : String)
    (fetch : Request → Except Unit (List String)) (h : jsHasColon s = false)
    (hterm : hasLineTerminator s = false) :
    WIKIINBOUNDLINKS s opt_namespaces fetch =
      WIKIINBOUNDLINKS ("en:" ++ s) opt_namespaces fetch := by
  by_cases hs : s = ""
  · subst hs; rfl
  · simp only [WIKIINBOUNDLINKS, parseLocator_no_colon s h,
      parseLocator_en_prepend s hterm, if_neg hs, if_neg (en_prefix_ne_empty s),
      DEFAULT_LANGUAGE]

theorem wikioutboundlinks_en_prepend (s opt_namespaces : String)
    (fetch : Request → Except Unit (List String)) (h : jsHasColon s = false)
    (hterm : hasLineTerminator s = false) :
    WIKIOUTBOUNDLINKS s opt_namespaces fetch =
      WIKIOUTBOUNDLINKS ("en:" ++ s) opt_namespaces fetch := by
  by_cases hs : s = ""
  · subst hs; rfl
  · simp only [WIKIOUTBOUNDLINKS, parseLocator_no_colon s h,
      parseLocator_en_prepend s hterm, if_neg hs, if_neg (en_prefix_ne_empty s),
      DEFAULT_LANGUAGE]

theorem wikitranslate_en_prepend (s : String) (targets : List String)
    (opt_skipHeader returnAsObject : Bool)
    (fetch : Request → Except Unit (List (String × String))) (h : jsHasColon s = false)
    (hterm : hasLineTerminator s = false) :
    WIKITRANSLATE s targets opt_skipHeader returnAsObject fetch =
      WIKITRANSLATE ("en:" ++ s) targets opt_skipHeader returnAsObject fetch := by
  by_cases hs : s = ""
  · subst hs; rfl
  · simp only [WIKITRANSLATE, parseLocator_no_colon s h,
      parseLocator_en_prepend s hterm, if_neg hs, if_neg (en_prefix_ne_empty s),
      DEFAULT_LANGUAGE]

theorem C6_witness :
    (WIKIINBOUNDLINKS "en:Berlin" "" (fun _ => Except.ok ["A", "B"]) =
      .arr [Entry.cell (.str "A"), Entry.cell (.str "B")]) ∧
    (WIKIOUTBOUNDLINKS "en:Berlin" "" (fun _ => Except.ok ["B", "C"]) =
      .arr [Entry.cell (.str "B"), Entry.cell (.str "C")]) ∧
    ∃ m, WIKIMUTUALLINKS "en:Berlin" "" (fun _ => Except.ok ["A", "B"])
        (fun _ => Except.ok ["B", "C"]) = .ok (.arr m) ∧
      ∀ e, e ∈ m ↔
        (e ∈ [Entry.cell (.str "A"), Entry.cell (.str "B")] ∧
         e ∈ [Entry.cell (.str "B"), Entry.cell (.str "C")]) :=
  ⟨by decide, by decide,
    C6_mutuallinks_is_intersection "en:Berlin" "" _ _ _ _ (by decide) (by decide)⟩

/-- C4 counterexample: the parsing rule is not uniform.  For the
one-colon locator `"de:Dom"`, `WIKICATEGORYMEMBERS` does not split on
the first colon: it queries the default language `en` with the whole
string `"de:Dom"` as the title (second conjunct) and never issues the
request for language `de` and title `Dom` that the claim requires
(first conjunct), because its parser demands more than one colon
(third conjunct).  The last conjunct refutes "subject = the entire
remainder" even for `parseLocator` itself: the regex capture `(.+)?`
cannot cross a line terminator, so the subject of `"de:a\nb"` is just
`"a"`, not `"a\nb"`. -/
theorem C4_counterexample :
    WIKICATEGORYMEMBERS "de:Dom" ""
        (fun r => if r = wikicategorymembersRequest "de" "Dom" "" "0" then
          Except.ok ["X"] else Except.error ()) = .str "" ∧
    WIKICATEGORYMEMBERS "de:Dom" ""
        (fun r => if r = wikicategorymembersRequest "en" "de:Dom" "" "0" then
          Except.ok ["X"] else Except.error ()) = .arr [Entry.cell (.str "X")] ∧
    parseLocatorMulti "de:Dom" = ("en", "de:Dom") ∧
    parseLocator "de:Dom" = ("de", "Dom") ∧
    parseLocator "de:a\nb" = ("de", "a") := by
  refine ⟨?_, ?_, rfl, rfl, rfl⟩ <;> decide

/-- C4 (amended): every locator-taking function other than
`WIKICATEGORYMEMBERS` and `WIKISUBCATEGORIES` splits on the first colon
only, so the language is the text before the first colon and the subject
is the `(.+)?` capture of the remainder: the run of characters after the
first colon up to (excluding) the first JavaScript line terminator
(fourth conjunct); when the remainder contains no line terminator this
is the entire remainder, and subjects containing colons are preserved
intact (first conjunct).  `WIKICATEGORYMEMBERS` and `WIKISUBCATEGORIES`
split this way only when the locator contains more than one colon
(second conjunct); with at most one colon they treat the entire string
as the subject in the default language (third conjunct). -/
theorem C4_amended_first_colon_split :
    (∀ lang subj : String, jsHasColon lang = false → hasLineTerminator subj = false →
      parseLocator (lang ++ ":" ++ subj) = (lang, subj)) ∧
    (∀ lang subj : String, jsHasColon lang = false → hasLineTerminator subj = false →
      jsHasColon subj = true →
      parseLocatorMulti (lang ++ ":" ++ subj) = (lang, subj)) ∧
    (∀ s : String, colonCount s ≤ 1 → parseLocatorMulti s = (DEFAULT_LANGUAGE, s)) ∧
    (∀ lang subj : String, jsHasColon lang = false →
      parseLocator (lang ++ ":" ++ subj) =
        (lang, String.mk (subj.toList.takeWhile fun ch => !(isLineTerminator ch)))) := by
  refine ⟨parseLocator_append, ?_, ?_, parseLocator_append_capture⟩
  · intro lang subj h1 hterm h2
    have hmem : ':' ∉ lang.toList := not_mem_of_jsHasColon_eq_false h1
    have hcount : colonCount (lang ++ ":" ++ subj) > 1 := by
      rw [colonCount, toList_append_colon, List.count_append, List.count_cons_self]
      have : 0 < subj.toList.count ':' := by
        rw [List.count_pos_iff]
        exact mem_of_jsHasColon h2
      omega
    rw [parseLocatorMulti, if_pos hcount, toList_append_colon,
      splitFirstColon_append _ _ hmem,
      takeWhile_eq_self_of_all _ _ (all_not_lineTerminator hterm)]
    rfl
  · intro s hle
    rw [parseLocatorMulti, if_neg]
    omega

theorem C4_witness :
    (jsHasColon "de" = false ∧ hasLineTerminator "Category:X" = false ∧
      jsHasColon "Category:X" = true ∧ colonCount "Berlin" ≤ 1) ∧
    parseLocator ("de" ++ ":" ++ "Category:X") = ("de", "Category:X") ∧
    parseLocatorMulti ("de" ++ ":" ++ "Category:X") = ("de", "Category:X") ∧
    parseLocatorMulti "Berlin" = (DEFAULT_LANGUAGE, "Berlin") ∧
    parseLocator ("de" ++ ":" ++ "a\nb") =
      ("de", String.mk ("a\nb".toList.takeWhile fun ch => !(isLineTerminator ch))) :=
  ⟨⟨by decide, by decide, by decide, by decide⟩,
    C4_amended_first_colon_split.1 "de" "Category:X" (by decide) (by decide),
    C4_amended_first_colon_split.2.1 "de" "Category:X" (by decide) (by decide) (by decide),
    C4_amended_first_colon_split.2.2.1 "Berlin" (by decide),
    C4_amended_first_colon_split.2.2.2 "de" "a\nb" (by decide)⟩

/-- C5: for every locator string without a colon, every locator-taking
function applies the default language `en` and treats the whole input
string as the subject.  The first two conjuncts state this for the two
locator parsers (including the variant of `WIKICATEGORYMEMBERS` /
`WIKISUBCATEGORIES`); the remaining conjuncts show it observationally
for each function that parses its locator with `parseLocator`: a
colon-free locator that contains no JavaScript line terminator (LF, CR,
U+2028, U+2029 — characters the regex capture `(.+)?` cannot match, so
an explicit `en:` prefix would truncate the subject there) behaves
exactly like the same locator with an explicit `en:` prefix. -/
theorem C5_default_language_en :
    (∀ s : String, jsHasColon s = false → parseLocator s = (DEFAULT_LANGUAGE, s)) ∧
    (∀ s : String, jsHasColon s = false → parseLocatorMulti s = (DEFAULT_LANGUAGE, s)) ∧
    (∀ (s opt_namespaces : String) (fetch : Request → Except Unit (List String)),
      jsHasColon s = false → hasLineTerminator s = false →
      WIKISYNONYMS s opt_namespaces fetch = WIKISYNONYMS ("en:" ++ s) opt_namespaces fetch) ∧
    (∀ (s : String) (radius : Int) (incl : Bool) (opt_namespaces : String)
      (fetch : Request → Except Unit (List GeoEntry)), jsHasColon s = false → hasLineTerminator s = false → s ≠ "" →
      WIKIARTICLESAROUND s radius incl opt_namespaces fetch =
        WIKIARTICLESAROUND ("en:" ++ s) radius incl opt_namespaces fetch) ∧
    (∀ (s : String) (targets : List String) (sh ro : Bool)
      (fetch : Request → Except Unit (List (String × String))), jsHasColon s = false → hasLineTerminator s = false →
      WIKITRANSLATE s targets sh ro fetch = WIKITRANSLATE ("en:" ++ s) targets sh ro fetch) ∧
    (∀ (s : String) (targets : List String)
      (fetchT : Request → Except Unit (List (String × String)))
      (fetchS : Request → Except Unit (List String)), jsHasColon s = false → hasLineTerminator s = false →
      WIKIEXPAND s targets fetchT fetchS = WIKIEXPAND ("en:" ++ s) targets fetchT fetchS) ∧
    (∀ (s : String) (fetch : Request → Except Unit String), jsHasColon s = false → hasLineTerminator s = false →
      WIKICOMMONSLINK s fetch = WIKICOMMONSLINK ("en:" ++ s) fetch) ∧
    (∀ (s : String) (fetch : Request → Except Unit (List String)), jsHasColon s = false → hasLineTerminator s = false →
      WIKICATEGORIES s fetch = WIKICATEGORIES ("en:" ++ s) fetch) ∧
    (∀ (s opt_namespaces : String) (fetch : Request → Except Unit (List String)),
      jsHasColon s = false → hasLineTerminator s = false →
      WIKIINBOUNDLINKS s opt_namespaces fetch =
        WIKIINBOUNDLINKS ("en:" ++ s) opt_namespaces fetch) ∧
    (∀ (s opt_namespaces : String) (fetch : Request → Except Unit (List String)),
      jsHasColon s = false → hasLineTerminator s = false →
      WIKIOUTBOUNDLINKS s opt_namespaces fetch =
        WIKIOUTBOUNDLINKS ("en:" ++ s) opt_namespaces fetch) ∧
    (∀ (s opt_namespaces : String)
      (fetchIn fetchOut : Request → Except Unit (List String)), jsHasColon s = false → hasLineTerminator s = false →
      WIKIMUTUALLINKS s opt_namespaces fetchIn fetchOut =
        WIKIMUTUALLINKS ("en:" ++ s) opt_namespaces fetchIn fetchOut) ∧
    (∀ (s : String) (fetch : Request → Except Unit (String × String)),
      jsHasColon s = false → hasLineTerminator s = false →
      WIKIGEOCOORDINATES s fetch = WIKIGEOCOORDINATES ("en:" ++ s) fetch) ∧
    (∀ (s opt_protocol opt_namespaces : String)
      (fetch : Request → Except Unit (List (String × String))), jsHasColon s = false → hasLineTerminator s = false →
      WIKILINKSEARCH s opt_protocol opt_namespaces fetch =
        WIKILINKSEARCH ("en:" ++ s) opt_protocol opt_namespaces fetch) ∧
    (∀ (s mode : String) (props : List String)
      (fetchE : Request → Except Unit (List (String × List WdStatement)))
      (fetchL : Request → Except Unit (List (String × String))), jsHasColon s = false → hasLineTerminator s = false →
      WIKIDATAFACTS s mode props fetchE fetchL =
        WIKIDATAFACTS ("en:" ++ s) mode props fetchE fetchL) ∧
    (∀ (s start stop : String) (sum : Bool)
      (fetch : Request → Except Unit (List PageviewsItem)), jsHasColon s = false → hasLineTerminator s = false →
      WIKIPAGEVIEWS s start stop sum fetch =
        WIKIPAGEVIEWS ("en:" ++ s) start stop sum fetch) ∧
    (∀ (s start stop : String) (fetch : Request → Except Unit (List RevisionEntry)),
      jsHasColon s = false → hasLineTerminator s = false →
      WIKIPAGEEDITS s start stop fetch = WIKIPAGEEDITS ("en:" ++ s) start stop fetch) ∧
    (∀ (s : String) (dym : Bool) (opt_namespaces : String)
      (fetch : Request → Except Unit SearchPayload), jsHasColon s = false → hasLineTerminator s = false →
      WIKISEARCH s dym opt_namespaces fetch =
        WIKISEARCH ("en:" ++ s) dym opt_namespaces fetch) ∧
    (∀ (s : String) (fetch : Request → Except Unit (Option String)),
      jsHasColon s = false → hasLineTerminator s = false →
      WIKIDATAQID s fetch = WIKIDATAQID ("en:" ++ s) fetch) ∧
    (∀ (s : String) (fetch : Request → Except Unit (List String)),
      jsHasColon s = false → hasLineTerminator s = false →
      GOOGLESUGGEST s fetch = GOOGLESUGGEST ("en:" ++ s) fetch) := by
  refine ⟨parseLocator_no_colon, parseLocatorMulti_no_colon, ?_, ?_,
    wikitranslate_en_prepend, ?_, ?_, ?_, wikiinboundlinks_en_prepend,
    wikioutboundlinks_en_prepend, ?_, ?_, ?_, ?_, ?_, ?_, ?_, ?_, ?_⟩
  · intro s ns f h hterm
    by_cases hs : s = ""
    · subst hs; rfl
    · simp only [WIKISYNONYMS, parseLocator_no_colon s h, parseLocator_en_prepend s hterm,
        if_neg hs, if_neg (en_prefix_ne_empty s), DEFAULT_LANGUAGE]
  · intro s r incl ns f h hterm hs
    simp only [WIKIARTICLESAROUND, parseLocator_no_colon s h, parseLocator_en_prepend s hterm,
      if_neg hs, if_neg (en_prefix_ne_empty s), DEFAULT_LANGUAGE]
  · intro s targets fT fS h hterm
    by_cases hs : s = ""
    · subst hs; rfl
    · simp only [WIKIEXPAND, parseLocator_no_colon s h, parseLocator_en_prepend s hterm,
        if_neg hs, if_neg (en_prefix_ne_empty s), DEFAULT_LANGUAGE]
      rw [wikitranslate_en_prepend s _ false true fT h hterm]
  · intro s f h hterm
    by_cases hs : s = ""
    · subst hs; rfl
    · simp only [WIKICOMMONSLINK, parseLocator_no_colon s h, parseLocator_en_prepend s hterm,
        if_neg hs, if_neg (en_prefix_ne_empty s), DEFAULT_LANGUAGE]
  · intro s f h hterm
    by_cases hs : s = ""
    · subst hs; rfl
    · simp only [WIKICATEGORIES, parseLocator_no_colon s h, parseLocator_en_prepend s hterm,
        if_neg hs, if_neg (en_prefix_ne_empty s), DEFAULT_LANGUAGE]
  · intro s ns fI fO h hterm
    rw [WIKIMUTUALLINKS, WIKIMUTUALLINKS, wikiinboundlinks_en_prepend s ns fI h hterm,
      wikioutboundlinks_en_prepend s ns fO h hterm]
  · intro s f h hterm
    by_cases hs : s = ""
    · subst hs; rfl
    · simp only [WIKIGEOCOORDINATES, parseLocator_no_colon s h, parseLocator_en_prepend s hterm,
        if_neg hs, if_neg (en_prefix_ne_empty s), DEFAULT_LANGUAGE]
  · intro s p ns f h hterm
    by_cases hs : s = ""
    · subst hs; rfl
    · simp only [WIKILINKSEARCH, parseLocator_no_colon s h, parseLocator_en_prepend s hterm,
        if_neg hs, if_neg (en_prefix_ne_empty s), DEFAULT_LANGUAGE]
  · intro s mode props fE fL h hterm
    by_cases hs : s = ""
    · subst hs; rfl
    · simp only [WIKIDATAFACTS, parseLocator_no_colon s h, parseLocator_en_prepend s hterm,
        if_neg hs, if_neg (en_prefix_ne_empty s), DEFAULT_LANGUAGE]
  · intro s start stop sum f h hterm
    by_cases hs : s = ""
    · subst hs; rfl
    · simp only [WIKIPAGEVIEWS, parseLocator_no_colon s h, parseLocator_en_prepend s hterm,
        if_neg hs, if_neg (en_prefix_ne_empty s), DEFAULT_LANGUAGE]
  · intro s start stop f h hterm
    by_cases hs : s = ""
    · subst hs; rfl
    · simp only [WIKIPAGEEDITS, parseLocator_no_colon s h, parseLocator_en_prepend s hterm,
        if_neg hs, if_neg (en_prefix_ne_empty s), DEFAULT_LANGUAGE]
  · intro s dym ns f h hterm
    by_cases hs : s = ""
    · subst hs; rfl
    · simp only [WIKISEARCH, parseLocator_no_colon s h, parseLocator_en_prepend s hterm,
        if_neg hs, if_neg (en_prefix_ne_empty s), DEFAULT_LANGUAGE]
  · intro s f h hterm
    by_cases hs : s = ""
    · subst hs; rfl
    · simp only [WIKIDATAQID, parseLocator_no_colon s h, parseLocator_en_prepend s hterm,
        if_neg hs, if_neg (en_prefix_ne_empty s), DEFAULT_LANGUAGE]
  · intro s f h hterm
    by_cases hs : s = ""
    · subst hs; rfl
    · simp only [GOOGLESUGGEST, parseLocator_no_colon s h, parseLocator_en_prepend s hterm,
        if_neg hs, if_neg (en_prefix_ne_empty s), DEFAULT_LANGUAGE]

theorem C5_witness :
    jsHasColon "Berlin" = false ∧
    parseLocator "Berlin" = (DEFAULT_LANGUAGE, "Berlin") ∧
    WIKISYNONYMS "Berlin" "" (fun _ => Except.ok ["A"]) =
      WIKISYNONYMS ("en:" ++ "Berlin") "" (fun _ => Except.ok ["A"]) ∧
    WIKIPAGEVIEWS "Berlin" "20200101" "20200102" false (fun _ => Except.error ()) =
      WIKIPAGEVIEWS ("en:" ++ "Berlin") "20200101" "20200102" false
        (fun _ => Except.error ()) :=
  by
  obtain ⟨h1, h2, h3, h4, h5, h6, h7, h8, h9, h10, h11, h12,
    h13, h14, h15, h16, h17, h18, h19⟩ := C5_default_language_en
  exact ⟨by decide, h1 "Berlin" (by decide), h3 "Berlin" "" _ (by decide) (by decide),
    h15 "Berlin" "20200101" "20200102" false _ (by decide) (by decide)⟩

theorem wikiinboundlinks_empty_title {article : String} (opt_namespaces : String)
    (fetch : Request → Except Unit (List String))
    (h : (parseLocator article).2 = "") :
    WIKIINBOUNDLINKS article opt_namespaces fetch = .str "" := by
  simp [WIKIINBOUNDLINKS, h]

/-- C1 counterexample: two locator-taking functions do not return the
`''` sentinel on an empty subject.  `WIKIARTICLESAROUND` executes a
bare `return;` and yields `undefined`, and `WIKIMUTUALLINKS` raises an
uncaught `TypeError` (it calls `.filter` on the `''` string returned by
`WIKIINBOUNDLINKS`). -/
theorem C1_counterexample :
    WIKIARTICLESAROUND "de:" 1000 false "" (fun _ => Except.ok []) = .undef ∧
    WIKIMUTUALLINKS "de:" "" (fun _ => Except.ok []) (fun _ => Except.ok []) =
      .error () ∧
    JsVal.undef ≠ .str "" :=
  ⟨by decide, rfl, by decide⟩

/-- C1 (amended): every function that takes a locator argument returns
the empty `''` sentinel when the locator's subject portion is empty,
except `WIKIARTICLESAROUND`, which returns the sentinel only for the
empty string and returns `undefined` (no value) for a non-empty locator
with an empty subject such as `"de:"`, and `WIKIMUTUALLINKS`, which
raises a `TypeError`.  For `WIKICATEGORYMEMBERS` and
`WIKISUBCATEGORIES` the subject is the one produced by their own
more-than-one-colon parser. -/
theorem C1_amended_empty_subject :
    (∀ (a opt_namespaces : String) (fetch : Request → Except Unit (List String)),
      (parseLocator a).2 = "" → WIKISYNONYMS a opt_namespaces fetch = .str "") ∧
    (∀ (radius : Int) (incl : Bool) (opt_namespaces : String)
      (fetch : Request → Except Unit (List GeoEntry)),
      WIKIARTICLESAROUND "" radius incl opt_namespaces fetch = .str "") ∧
    (∀ (a : String) (radius : Int) (incl : Bool) (opt_namespaces : String)
      (fetch : Request → Except Unit (List GeoEntry)),
      a ≠ "" → (parseLocator a).2 = "" →
      WIKIARTICLESAROUND a radius incl opt_namespaces fetch = .undef) ∧
    (∀ (a : String) (targets : List String) (sh ro : Bool)
      (fetch : Request → Except Unit (List (String × String))),
      (parseLocator a).2 = "" → WIKITRANSLATE a targets sh ro fetch = .str "") ∧
    (∀ (a : String) (targets : List String)
      (fetchT : Request → Except Unit (List (String × String)))
      (fetchS : Request → Except Unit (List String)),
      (parseLocator a).2 = "" → WIKIEXPAND a targets fetchT fetchS = .str "") ∧
    (∀ (a : String) (fetch : Request → Except Unit String),
      (parseLocator a).2 = "" → WIKICOMMONSLINK a fetch = .str "") ∧
    (∀ (a opt_namespaces : String) (fetch : Request → Except Unit (List String)),
      (parseLocatorMulti a).2 = "" →
      WIKICATEGORYMEMBERS a opt_namespaces fetch = .str "") ∧
    (∀ (a opt_namespaces : String) (fetch : Request → Except Unit (List String)),
      (parseLocatorMulti a).2 = "" →
      WIKISUBCATEGORIES a opt_namespaces fetch = .str "") ∧
    (∀ (a : String) (fetch : Request → Except Unit (List String)),
      (parseLocator a).2 = "" → WIKICATEGORIES a fetch = .str "") ∧
    (∀ (a opt_namespaces : String) (fetch : Request → Except Unit (List String)),
      (parseLocator a).2 = "" → WIKIINBOUNDLINKS a opt_namespaces fetch = .str "") ∧
    (∀ (a opt_namespaces : String) (fetch : Request → Except Unit (List String)),
      (parseLocator a).2 = "" → WIKIOUTBOUNDLINKS a opt_namespaces fetch = .str "") ∧
    (∀ (a opt_namespaces : String)
      (fetchIn fetchOut : Request → Except Unit (List String)),
      (parseLocator a).2 = "" →
      WIKIMUTUALLINKS a opt_namespaces fetchIn fetchOut = .error ()) ∧
    (∀ (a : String) (fetch : Request → Except Unit (String × String)),
      (parseLocator a).2 = "" → WIKIGEOCOORDINATES a fetch = .str "") ∧
    (∀ (a opt_protocol opt_namespaces : String)
      (fetch : Request → Except Unit (List (String × String))),
      (parseLocator a).2 = "" →
      WIKILINKSEARCH a opt_protocol opt_namespaces fetch = .str "") ∧
    (∀ (a mode : String) (props : List String)
      (fetchE : Request → Except Unit (List (String × List WdStatement)))
      (fetchL : Request → Except Unit (List (String × String))),
      (parseLocator a).2 = "" → WIKIDATAFACTS a mode props fetchE fetchL = .str "") ∧
    (∀ (a start stop : String) (sum : Bool)
      (fetch : Request → Except Unit (List PageviewsItem)),
      (parseLocator a).2 = "" → WIKIPAGEVIEWS a start stop sum fetch = .str "") ∧
    (∀ (a start stop : String) (fetch : Request → Except Unit (List RevisionEntry)),
      (parseLocator a).2 = "" → WIKIPAGEEDITS a start stop fetch = .str "") ∧
    (∀ (a : String) (dym : Bool) (opt_namespaces : String)
      (fetch : Request → Except Unit SearchPayload),
      (parseLocator a).2 = "" → WIKISEARCH a dym opt_namespaces fetch = .str "") ∧
    (∀ (a : String) (fetch : Request → Except Unit (Option String)),
      (parseLocator a).2 = "" → WIKIDATAQID a fetch = .str "") ∧
    (∀ (a : String) (fetch : Request → Except Unit (List String)),
      (parseLocator a).2 = "" → GOOGLESUGGEST a fetch = .str "") := by
  have hll : isLatLonPoint "" = false := rfl
  refine ⟨?_, ?_, ?_, ?_, ?_, ?_, ?_, ?_, ?_, ?_, ?_, ?_, ?_, ?_, ?_, ?_, ?_, ?_, ?_, ?_⟩
  · intro a ns f h; simp [WIKISYNONYMS, h]
  · intro r incl ns f; rfl
  · intro a r incl ns f ha h
    simp [WIKIARTICLESAROUND, if_neg ha, h, hll]
  · intro a t sh ro f h; simp [WIKITRANSLATE, h]
  · intro a t fT fS h; simp [WIKIEXPAND, h]
  · intro a f h; simp [WIKICOMMONSLINK, h]
  · intro a ns f h; simp [WIKICATEGORYMEMBERS, h]
  · intro a ns f h; simp [WIKISUBCATEGORIES, h]
  · intro a f h; simp [WIKICATEGORIES, h]
  · intro a ns f h; exact wikiinboundlinks_empty_title ns f h
  · intro a ns f h; simp [WIKIOUTBOUNDLINKS, h]
  · intro a ns fI fO h
    rw [WIKIMUTUALLINKS, wikiinboundlinks_empty_title ns fI h]
  · intro a f h; simp [WIKIGEOCOORDINATES, h]
  · intro a p ns f h; simp [WIKILINKSEARCH, h]
  · intro a m props fE fL h; simp [WIKIDATAFACTS, h]
  · intro a s e sum f h; simp [WIKIPAGEVIEWS, h]
  · intro a s e f h; simp [WIKIPAGEEDITS, h]
  · intro a dym ns f h; simp [WIKISEARCH, h]
  · intro a f h; simp [WIKIDATAQID, h]
  · intro a f h; simp [GOOGLESUGGEST, h]

theorem C1_witness :
    ((parseLocator "de:").2 = "" ∧ "de:" ≠ "") ∧
    WIKISYNONYMS "de:" "" (fun _ => Except.ok ["A"]) = .str "" ∧
    WIKIPAGEVIEWS "de:" "20200101" "20200102" true (fun _ => Except.ok []) = .str "" ∧
    WIKIARTICLESAROUND "de:" 1000 false "" (fun _ => Except.ok []) = .undef := by
  obtain ⟨h1, _, h3, _, _, _, _, _, _, _, _, _, _, _, _, h16, _, _, _, _⟩ :=
    C1_amended_empty_subject
  exact ⟨⟨by decide, by decide⟩, h1 "de:" "" _ (by decide),
    h16 "de:" "20200101" "20200102" true _ (by decide),
    C1_amended_empty_subject.2.2.1 "de:" 1000 false "" _ (by decide) (by decide)⟩

theorem wikitranslate_obj (a : String) (t : List String) (sh : Bool)
    (f : Request → Except Unit (List (String × String)))
    (ha : a ≠ "") (ht : (parseLocator a).2 ≠ "") :
    ∃ m, WIKITRANSLATE a t sh true f = .obj m := by
  rw [WIKITRANSLATE, if_neg ha, if_neg ht]
  exact ⟨_, rfl⟩

/-- C3 counterexample: not every upstream error is converted into the
empty result.  When the inbound-links fetch fails, `WIKIMUTUALLINKS`
raises an uncaught `TypeError` instead (first conjunct); when target
languages were requested, a failing `WIKITRANSLATE` fetch returns the
prefilled fallback rows built from the input title rather than the
empty result (second conjunct); and `WIKIPAGEVIEWS` with `opt_sumOnly`
returns `[0]` on failure (third conjunct). -/
theorem C3_counterexample :
    WIKIMUTUALLINKS "en:Berlin" "" (fun _ => Except.error ())
      (fun _ => Except.ok ["A"]) = .error () ∧
    WIKITRANSLATE "en:Berlin" ["de"] false false (fun _ => Except.error ()) =
      .arr [Entry.row [.str "de", .str "Berlin"]] ∧
    WIKIPAGEVIEWS "en:Berlin" "20200101" "20200102" true (fun _ => Except.error ()) =
      .arr [Entry.cell (.num 0)] :=
  ⟨rfl, by decide, by decide⟩

/-- C3 (amended): a parse or network error raised during the upstream
request or response processing is caught and converted into the empty
`''` result by every function, with these exceptions: `WIKITRANSLATE`
falls back to rows built from the input title when target languages
were requested (with no target languages it does return `''`, as
stated here); `WIKIEXPAND` never converts a translation-fetch error
into `''` — it returns an array built from `WIKITRANSLATE`'s fallback
object, which is the empty array `[]` when no target languages were
requested (last two conjuncts); `WIKIPAGEVIEWS` and
`WIKIPAGEVIEWSPERARTICLE` return `[0]` when `opt_sumOnly` is set; and
`WIKIMUTUALLINKS` does not catch at all: an inbound-links failure
surfaces as a `TypeError`. -/
theorem C3_amended_error_to_empty :
    (∀ a opt_namespaces : String, ∀ f : Request → Except Unit (List String),
      (∀ r, f r = .error ()) → WIKISYNONYMS a opt_namespaces f = .str "") ∧
    (∀ (a : String) (radius : Int) (incl : Bool) (opt_namespaces : String),
      (parseLocator a).2 ≠ "" →
      WIKIARTICLESAROUND a radius incl opt_namespaces (fun _ => Except.error ()) = .str "") ∧
    (∀ (a : String) (sh : Bool),
      WIKITRANSLATE a [] sh false (fun _ => Except.error ()) = .str "") ∧
    (∀ a : String, WIKICOMMONSLINK a (fun _ => Except.error ()) = .str "") ∧
    (∀ a opt_namespaces : String,
      WIKICATEGORYMEMBERS a opt_namespaces (fun _ => Except.error ()) = .str "") ∧
    (∀ a opt_namespaces : String,
      WIKISUBCATEGORIES a opt_namespaces (fun _ => Except.error ()) = .str "") ∧
    (∀ a : String, WIKICATEGORIES a (fun _ => Except.error ()) = .str "") ∧
    (∀ a opt_namespaces : String,
      WIKIINBOUNDLINKS a opt_namespaces (fun _ => Except.error ()) = .str "") ∧
    (∀ a opt_namespaces : String,
      WIKIOUTBOUNDLINKS a opt_namespaces (fun _ => Except.error ()) = .str "") ∧
    (∀ a : String, WIKIGEOCOORDINATES a (fun _ => Except.error ()) = .str "") ∧
    (∀ a opt_protocol opt_namespaces : String,
      WIKILINKSEARCH a opt_protocol opt_namespaces (fun _ => Except.error ()) = .str "") ∧
    (∀ (a mode : String) (props : List String),
      WIKIDATAFACTS a mode props (fun _ => Except.error ())
        (fun _ => Except.error ()) = .str "") ∧
    (∀ a start stop : String,
      WIKIPAGEVIEWS a start stop false (fun _ => Except.error ()) = .str "") ∧
    (∀ project a opt_access opt_agent opt_granularity start stop : String,
      WIKIPAGEVIEWSPERARTICLE project a opt_access opt_agent opt_granularity
        start stop false (fun _ => Except.error ()) = .str "") ∧
    (∀ project opt_access opt_agent opt_granularity start stop : String,
      WIKIPAGEVIEWSAGGREGATE project opt_access opt_agent opt_granularity
        start stop (fun _ => Except.error ()) = .str "") ∧
    (∀ project opt_access opt_date : String,
      WIKIPAGEVIEWSTOP project opt_access opt_date (fun _ => Except.error ()) = .str "") ∧
    (∀ project opt_accessSite opt_granularity start stop : String,
      WIKIUNIQUEDEVICES project opt_accessSite opt_granularity start stop
        (fun _ => Except.error ()) = .str "") ∧
    (∀ a start stop : String,
      WIKIPAGEEDITS a start stop (fun _ => Except.error ()) = .str "") ∧
    (∀ (a : String) (dym : Bool) (opt_namespaces : String),
      WIKISEARCH a dym opt_namespaces (fun _ => Except.error ()) = .str "") ∧
    (∀ a : String, WIKIDATAQID a (fun _ => Except.error ()) = .str "") ∧
    (∀ (qid : String) (targets : List String),
      WIKIDATALABELS qid targets (fun _ => Except.error ()) = .str "") ∧
    (∀ (qid : String) (targets : List String),
      WIKIDATADESCRIPTIONS qid targets (fun _ => Except.error ()) = .str "") ∧
    (∀ queryId : Nat, WIKIQUARRY queryId (fun _ => Except.error ()) = .str "") ∧
    (∀ a : String, GOOGLESUGGEST a (fun _ => Except.error ()) = .str "") ∧
    (∀ (a : String) (t : List String) (fS : Request → Except Unit (List String)),
      (parseLocator a).2 ≠ "" →
      ∃ rows, WIKIEXPAND a t (fun _ => Except.error ()) fS = .arr rows) ∧
    (∀ (a : String) (fS : Request → Except Unit (List String)),
      (parseLocator a).2 ≠ "" →
      WIKIEXPAND a [] (fun _ => Except.error ()) fS = .arr []) := by
  refine ⟨?_, ?_, ?_, ?_, ?_, ?_, ?_, ?_, ?_, ?_, ?_, ?_, ?_, ?_, ?_, ?_, ?_, ?_,
    ?_, ?_, ?_, ?_, ?_, ?_, ?_, ?_⟩
  · intro a ns f hf; simp [WIKISYNONYMS, hf, resultsOrEmpty]
  · intro a r incl ns h
    have ha : a ≠ "" := fun e => h (by rw [e]; rfl)
    simp only [WIKIARTICLESAROUND]
    rw [if_neg ha]
    by_cases hp : isLatLonPoint (parseLocator a).2
    · rw [if_pos hp]
      cases incl <;> rfl
    · rw [if_neg hp, if_neg h]
      cases incl <;> rfl
  · intro a sh; simp [WIKITRANSLATE, objKeysDedup, objKeysInsertionOrder, resultsOrEmpty]
  · intro a; simp [WIKICOMMONSLINK, resultsOrEmpty]
  · intro a ns; simp [WIKICATEGORYMEMBERS, resultsOrEmpty]
  · intro a ns; simp [WIKISUBCATEGORIES, resultsOrEmpty]
  · intro a; simp [WIKICATEGORIES, resultsOrEmpty]
  · intro a ns; simp [WIKIINBOUNDLINKS, resultsOrEmpty]
  · intro a ns; simp [WIKIOUTBOUNDLINKS, resultsOrEmpty]
  · intro a; simp [WIKIGEOCOORDINATES, resultsOrEmpty]
  · intro a p ns; simp [WIKILINKSEARCH, resultsOrEmpty]
  · intro a m props; simp [WIKIDATAFACTS, resultsOrEmpty]
  · intro a s e; simp [WIKIPAGEVIEWS, resultsOrEmpty]
  · intro p a acc ag g s e; simp [WIKIPAGEVIEWSPERARTICLE, resultsOrEmpty]
  · intro p acc ag g s e; simp [WIKIPAGEVIEWSAGGREGATE, resultsOrEmpty]
  · intro p acc d; simp [WIKIPAGEVIEWSTOP, resultsOrEmpty]
  · intro p acc g s e; simp [WIKIUNIQUEDEVICES, resultsOrEmpty]
  · intro a s e; simp [WIKIPAGEEDITS, wikipageeditsProcess, resultsOrEmpty]
  · intro a dym ns; simp [WIKISEARCH, resultsOrEmpty]
  · intro a; simp [WIKIDATAQID, resultsOrEmpty]
  · intro q t; simp [WIKIDATALABELS, resultsOrEmpty]
  · intro q t; simp [WIKIDATADESCRIPTIONS, resultsOrEmpty]
  · intro q; simp [WIKIQUARRY, resultsOrEmpty]
  · intro a; simp [GOOGLESUGGEST, resultsOrEmpty]
  · intro a t fS h
    have ha : a ≠ "" := fun e => h (by rw [e]; rfl)
    obtain ⟨m, hm⟩ := wikitranslate_obj a (objKeysDedup t) false
      (fun _ => Except.error ()) ha h
    rw [WIKIEXPAND, if_neg ha, if_neg h]
    dsimp only
    rw [hm]
    exact ⟨_, rfl⟩
  · intro a fS h
    have ha : a ≠ "" := fun e => h (by rw [e]; rfl)
    have hobj : WIKITRANSLATE a (objKeysDedup []) false true
        (fun _ => Except.error ()) = .obj [] := by
      rw [WIKITRANSLATE, if_neg ha, if_neg h]
      rfl
    rw [WIKIEXPAND, if_neg ha, if_neg h]
    dsimp only
    rw [hobj]
    rfl

theorem C3_witness :
    ((parseLocator "en:Berlin").2 ≠ "") ∧
    WIKISYNONYMS "en:Berlin" "" (fun _ => Except.error ()) = .str "" ∧
    WIKIARTICLESAROUND "en:Berlin" 1000 false "" (fun _ => Except.error ()) = .str "" ∧
    WIKIEXPAND "en:Berlin" [] (fun _ => Except.error ())
      (fun _ => Except.error ()) = .arr [] := by
  obtain ⟨h1, h2, hrest⟩ := C3_amended_error_to_empty
  exact ⟨by decide, h1 "en:Berlin" "" _ (fun _ => rfl),
    h2 "en:Berlin" 1000 false "" (by decide),
    C3_amended_error_to_empty.2.2.2.2.2.2.2.2.2.2.2.2.2.2.2.2.2.2.2.2.2.2.2.2.2
      "en:Berlin" _ (by decide)⟩

/-- C10 counterexample: with a truthy `opt_sumOnly` but a locator whose
subject is empty, `WIKIPAGEVIEWS` returns the `''` sentinel rather than
a one-element array, even though the upstream data contains views. -/
theorem C10_counterexample :
    WIKIPAGEVIEWS "de:" "20200101" "20200102" true
      (fun _ => Except.ok [⟨"2020010100", 5⟩]) = .str "" ∧
    (JsVal.str "" ≠ .arr [Entry.cell (.num 5)]) ∧
    (JsVal.str "" ≠ .arr [Entry.cell (.num 0)]) := by
  refine ⟨?_, by decide, by decide⟩
  decide

/-- C10 (amended): when `WIKIPAGEVIEWS` is called with a truthy
`opt_sumOnly` and a locator whose parsed subject is non-empty (for
`WIKIPAGEVIEWSPERARTICLE`: a non-empty project and article), the result
is always the one-element array holding the numeric sum of the item
views; in particular a failed upstream request yields `[0]` rather than
the `''` sentinel.  With an empty subject the empty-input guards run
first and return `''`. -/
theorem C10_amended_sumonly :
    (∀ (a start stop : String) (fetch : Request → Except Unit (List PageviewsItem)),
      (parseLocator a).2 ≠ "" →
      ∃ n : Int, WIKIPAGEVIEWS a start stop true fetch = .arr [Entry.cell (.num n)]) ∧
    (∀ (a start stop : String) (items : List PageviewsItem),
      (parseLocator a).2 ≠ "" →
      WIKIPAGEVIEWS a start stop true (fun _ => Except.ok items) =
        .arr [Entry.cell (.num ((items.map PageviewsItem.views).sum))]) ∧
    (∀ a start stop : String, (parseLocator a).2 ≠ "" →
      WIKIPAGEVIEWS a start stop true (fun _ => Except.error ()) =
        .arr [Entry.cell (.num 0)]) ∧
    (∀ (project a opt_access opt_agent opt_granularity start stop : String)
      (fetch : Request → Except Unit (List PageviewsItem)),
      project ≠ "" → a ≠ "" →
      ∃ n : Int, WIKIPAGEVIEWSPERARTICLE project a opt_access opt_agent
        opt_granularity start stop true fetch = .arr [Entry.cell (.num n)]) ∧
    (∀ project a opt_access opt_agent opt_granularity start stop : String,
      project ≠ "" → a ≠ "" →
      WIKIPAGEVIEWSPERARTICLE project a opt_access opt_agent opt_granularity
        start stop true (fun _ => Except.error ()) = .arr [Entry.cell (.num 0)]) := by
  have hsum : ∀ (l : List PageviewsItem) (n : Int),
      l.foldl (fun s i => s + i.views) n = n + (l.map PageviewsItem.views).sum := by
    intro l
    induction l with
    | nil => intro n; simp
    | cons a t ih => intro n; simp [ih, add_assoc]
  refine ⟨?_, ?_, ?_, ?_, ?_⟩
  · intro a s e f h
    have ha : a ≠ "" := fun e' => h (by rw [e']; rfl)
    rw [WIKIPAGEVIEWS, if_neg ha, if_neg h]
    exact ⟨_, rfl⟩
  · intro a s e items h
    have ha : a ≠ "" := fun e' => h (by rw [e']; rfl)
    rw [WIKIPAGEVIEWS, if_neg ha, if_neg h]
    simp [hsum]
  · intro a s e h
    have ha : a ≠ "" := fun e' => h (by rw [e']; rfl)
    rw [WIKIPAGEVIEWS, if_neg ha, if_neg h]
    rfl
  · intro p a acc ag g s e f hp ha
    rw [WIKIPAGEVIEWSPERARTICLE, if_neg hp, if_neg ha]
    exact ⟨_, rfl⟩
  · intro p a acc ag g s e hp ha
    rw [WIKIPAGEVIEWSPERARTICLE, if_neg hp, if_neg ha]
    rfl

theorem C10_witness :
    ((parseLocator "en:Berlin").2 ≠ "") ∧
    WIKIPAGEVIEWS "en:Berlin" "20200101" "20200102" true
      (fun _ => Except.ok [⟨"2020010100", 5⟩, ⟨"2020010200", 7⟩]) =
      .arr [Entry.cell (.num 12)] ∧
    WIKIPAGEVIEWS "en:Berlin" "20200101" "20200102" true (fun _ => Except.error ()) =
      .arr [Entry.cell (.num 0)] := by
  refine ⟨by decide, ?_, C10_amended_sumonly.2.2.1 "en:Berlin" "20200101" "20200102"
    (by decide)⟩
  have := C10_amended_sumonly.2.1 "en:Berlin" "20200101" "20200102"
    [⟨"2020010100", 5⟩, ⟨"2020010200", 7⟩] (by decide)
  simpa using this

theorem map_fst_zip_tail {α : Type} :
    ∀ l : List α, (l.zip l.tail).map Prod.fst = l.dropLast
  | [] => rfl
  | [_] => rfl
  | a :: b :: t => by
    have ih := map_fst_zip_tail (b :: t)
    simpa using ih

/-- C8 counterexample: `WIKIUNIQUEDEVICES` is a date-range function, yet
for an upstream payload in ascending chronological order it returns its
rows in the same ascending order (first and second conjuncts), not in
strictly descending order (third conjunct). -/
theorem C8_counterexample :
    WIKIUNIQUEDEVICES "en.wikipedia" "" "" "20200101" "20200102"
      (fun _ => Except.ok [⟨"20200101", 5⟩, ⟨"20200102", 7⟩]) =
      .arr [Entry.row [.date (some 1577836800000), .num 5],
            Entry.row [.date (some 1577923200000), .num 7]] ∧
    (([(⟨"20200101", 5⟩ : UniqueDevicesItem), ⟨"20200102", 7⟩].filterMap
      (fun i => timestamp8Date i.timestamp)).Pairwise (· < ·)) ∧
    ¬ (([Entry.row [.date (some 1577836800000), .num 5],
         Entry.row [.date (some 1577923200000), .num 7]].filterMap
          rowDateOf).Pairwise (· > ·)) := by
  refine ⟨by decide, by decide, by decide⟩

/-- C8 (amended): among the date-range functions, `WIKIPAGEVIEWS`,
`WIKIPAGEVIEWSPERARTICLE` and `WIKIPAGEVIEWSAGGREGATE` reverse the
payload, so an upstream payload whose entries are in strictly ascending
chronological order produces a table in strictly descending date order
(the row dates are exactly the reversed payload dates);
`WIKIUNIQUEDEVICES` and `WIKIPAGEEDITS`, by contrast, emit their rows
in payload order (last two conjuncts: the row dates are exactly the
payload dates, for `WIKIPAGEEDITS` those of every revision but the last
since the final delta row is dropped), so for `WIKIUNIQUEDEVICES` an
ascending payload produces ascending rows.  `WIKIPAGEEDITS`'s upstream
query is built newest-first via the inverted `rvstart`/`rvend`
parameters, so only `WIKIUNIQUEDEVICES` deviates in practice. -/
theorem C8_amended_date_order :
    (∀ (a start stop : String) (items : List PageviewsItem) (rows : List Entry),
      ((items.filterMap fun i => timestamp10Date i.timestamp).Pairwise (· < ·)) →
      WIKIPAGEVIEWS a start stop false (fun _ => Except.ok items) = .arr rows →
      rows.map rowDateOf = (items.map fun i => timestamp10Date i.timestamp).reverse ∧
        (rows.filterMap rowDateOf).Pairwise (· > ·)) ∧
    (∀ (project a opt_access opt_agent opt_granularity start stop : String)
      (items : List PageviewsItem) (rows : List Entry),
      ((items.filterMap fun i => timestamp10Date i.timestamp).Pairwise (· < ·)) →
      WIKIPAGEVIEWSPERARTICLE project a opt_access opt_agent opt_granularity
        start stop false (fun _ => Except.ok items) = .arr rows →
      rows.map rowDateOf = (items.map fun i => timestamp10Date i.timestamp).reverse ∧
        (rows.filterMap rowDateOf).Pairwise (· > ·)) ∧
    (∀ (project opt_access opt_agent opt_granularity start stop : String)
      (items : List PageviewsItem) (rows : List Entry),
      ((items.filterMap fun i => timestamp10Date i.timestamp).Pairwise (· < ·)) →
      WIKIPAGEVIEWSAGGREGATE project opt_access opt_agent opt_granularity
        start stop (fun _ => Except.ok items) = .arr rows →
      rows.map rowDateOf = (items.map fun i => timestamp10Date i.timestamp).reverse ∧
        (rows.filterMap rowDateOf).Pairwise (· > ·)) ∧
    (∀ (project opt_accessSite opt_granularity start stop : String)
      (items : List UniqueDevicesItem) (rows : List Entry),
      WIKIUNIQUEDEVICES project opt_accessSite opt_granularity start stop
        (fun _ => Except.ok items) = .arr rows →
      rows.map rowDateOf = items.map fun i => timestamp8Date i.timestamp) ∧
    (∀ (a start stop : String) (entries : List RevisionEntry) (rows : List Entry),
      WIKIPAGEEDITS a start stop (fun _ => Except.ok entries) = .arr rows →
      rows.map rowDateOf =
        entries.dropLast.map fun en => revisionTimestampDate en.timestamp) := by
  have key : ∀ (items : List PageviewsItem) (rows : List Entry),
      ((items.filterMap fun i => timestamp10Date i.timestamp).Pairwise (· < ·)) →
      resultsOrEmpty (items.map pageviewsRow).reverse = .arr rows →
      rows.map rowDateOf = (items.map fun i => timestamp10Date i.timestamp).reverse ∧
        (rows.filterMap rowDateOf).Pairwise (· > ·) := by
    intro items rows hasc harr
    have hrows := resultsOrEmpty_eq_arr harr
    subst hrows
    constructor
    · rw [List.map_reverse, List.map_map]
      rfl
    · rw [List.filterMap_reverse, List.filterMap_map, List.pairwise_reverse]
      exact hasc
  refine ⟨?_, ?_, ?_, ?_, ?_⟩
  · intro a start stop items rows hasc harr
    by_cases h1 : a = ""
    · rw [WIKIPAGEVIEWS, if_pos h1] at harr; cases harr
    by_cases h2 : (parseLocator a).2 = ""
    · rw [WIKIPAGEVIEWS, if_neg h1, if_pos h2] at harr; cases harr
    rw [WIKIPAGEVIEWS, if_neg h1, if_neg h2] at harr
    exact key items rows hasc (by simpa using harr)
  · intro project a acc ag g start stop items rows hasc harr
    by_cases h1 : project = ""
    · rw [WIKIPAGEVIEWSPERARTICLE, if_pos h1] at harr; cases harr
    by_cases h2 : a = ""
    · rw [WIKIPAGEVIEWSPERARTICLE, if_neg h1, if_pos h2] at harr; cases harr
    rw [WIKIPAGEVIEWSPERARTICLE, if_neg h1, if_neg h2] at harr
    exact key items rows hasc (by simpa using harr)
  · intro project acc ag g start stop items rows hasc harr
    by_cases h1 : project = ""
    · rw [WIKIPAGEVIEWSAGGREGATE, if_pos h1] at harr; cases harr
    rw [WIKIPAGEVIEWSAGGREGATE, if_neg h1] at harr
    exact key items rows hasc harr
  · intro project acc g start stop items rows harr
    by_cases h1 : project = ""
    · rw [WIKIUNIQUEDEVICES, if_pos h1] at harr; cases harr
    rw [WIKIUNIQUEDEVICES, if_neg h1] at harr
    have hrows := resultsOrEmpty_eq_arr harr
    subst hrows
    rw [List.map_map]
    rfl
  · intro a s3 e3 entries rows harr
    by_cases h1 : a = ""
    · rw [WIKIPAGEEDITS, if_pos h1] at harr; cases harr
    by_cases h2 : (parseLocator a).2 = ""
    · rw [WIKIPAGEEDITS, if_neg h1, if_pos h2] at harr; cases harr
    rw [WIKIPAGEEDITS, if_neg h1, if_neg h2] at harr
    simp only [wikipageeditsProcess] at harr
    have hrows := resultsOrEmpty_eq_arr harr
    subst hrows
    rw [List.map_map, ← map_fst_zip_tail entries, List.map_map]
    rfl

theorem C8_witness :
    (([(⟨"2020010100", 5⟩ : PageviewsItem), ⟨"2020010200", 7⟩].filterMap
      (fun i => timestamp10Date i.timestamp)).Pairwise (· < ·)) ∧
    WIKIPAGEVIEWS "en:Berlin" "20200101" "20200102" false
      (fun _ => Except.ok [⟨"2020010100", 5⟩, ⟨"2020010200", 7⟩]) =
      .arr [Entry.row [.date (some 1577923200000), .num 7],
            Entry.row [.date (some 1577836800000), .num 5]] ∧
    ([Entry.row [.date (some 1577923200000), .num 7],
      Entry.row [.date (some 1577836800000), .num 5]].map rowDateOf =
        ([(⟨"2020010100", 5⟩ : PageviewsItem), ⟨"2020010200", 7⟩].map
          fun i => timestamp10Date i.timestamp).reverse) ∧
    (([Entry.row [.date (some 1577923200000), .num 7],
       Entry.row [.date (some 1577836800000), .num 5]].filterMap
        rowDateOf).Pairwise (· > ·)) := by
  refine ⟨by decide, by decide, ?_, ?_⟩
  · exact (C8_amended_date_order.1 "en:Berlin" "20200101" "20200102"
      [⟨"2020010100", 5⟩, ⟨"2020010200", 7⟩] _ (by decide) (by decide)).1
  · exact (C8_amended_date_order.1 "en:Berlin" "20200101" "20200102"
      [⟨"2020010100", 5⟩, ⟨"2020010200", 7⟩] _ (by decide) (by decide)).2

theorem mem_wdFactRow {labels : List (String × Option String)} {label claimObject : String}
    {e : Entry} (h : e ∈ wdFactRow labels label claimObject) :
    ∃ cs, e = Entry.row cs ∧ cs.length = 2 := by
  rw [wdFactRow] at h
  split at h
  · rcases List.mem_singleton.mp h with rfl
    exact ⟨_, rfl, rfl⟩
  · cases h

theorem jsConcatCells_length_ge (c : Cell) (v : JsVal) :
    1 ≤ (jsConcatCells [c] v).length := by
  cases v <;> simp [jsConcatCells]

/-- C2 counterexample: two functions can return an empty table, which is
neither a non-empty table nor the `''` sentinel.  `WIKIEXPAND` returns
its `results` array unguarded (here: translations failed with no target
languages requested), and `WIKIMUTUALLINKS` returns the bare filter
result (here: inbound and outbound link sets are disjoint). -/
theorem C2_counterexample :
    WIKIEXPAND "en:Berlin" [] (fun _ => Except.error ()) (fun _ => Except.error ()) =
      .arr [] ∧
    WIKIMUTUALLINKS "en:Berlin" "" (fun _ => Except.ok ["A"])
      (fun _ => Except.ok ["B"]) = .ok (.arr []) ∧
    (JsVal.arr [] ≠ .str "") ∧ ([] : List Entry).length = 0 :=
  ⟨rfl, rfl, by decide, rfl⟩

/-- C2 (amended): every function returns either a non-empty table or the
`''` "no data" sentinel, with these exceptions: `WIKIEXPAND` returns
the sentinel or a possibly-empty table, `WIKIMUTUALLINKS` returns a
possibly-empty table or raises, and `WIKIARTICLESAROUND` may also
return `undefined`.  Emitted rows are complete: the final conjuncts
show that every emitted row of the 2-D functions has that function's
full fixed arity (3 or 4 columns for `WIKIARTICLESAROUND` according to
`opt_includeDistance`; 2 columns for `WIKILINKSEARCH`, `WIKIPAGEVIEWS`,
`WIKIUNIQUEDEVICES`, `WIKIPAGEEDITS`, `WIKITRANSLATE` without
`opt_skipHeader`, `WIKIGEOCOORDINATES`, `WIKIDATAFACTS`, `WIKISEARCH`
with `opt_didYouMean`, `WIKIDATALABELS`, `WIKIDATADESCRIPTIONS`,
`WIKIPAGEVIEWSPERARTICLE` without `opt_sumOnly`,
`WIKIPAGEVIEWSAGGREGATE` and `WIKIPAGEVIEWSTOP`; `WIKITRANSLATE` with
`opt_skipHeader` emits single cells).  The two remaining table
producers have no fixed arity by design: a `WIKIEXPAND` row is
language, title, then however many synonyms were found — always at
least 2 columns — and `WIKIQUARRY` emits the payload's header row and
data rows verbatim. -/
theorem C2_amended_nonempty_or_sentinel :
    (∀ (a opt_namespaces : String) (f : Request → Except Unit (List String)),
      nonEmptyTableOrSentinel (WIKISYNONYMS a opt_namespaces f)) ∧
    (∀ (a : String) (t : List String) (sh : Bool)
      (f : Request → Except Unit (List (String × String))),
      nonEmptyTableOrSentinel (WIKITRANSLATE a t sh false f)) ∧
    (∀ (a : String) (f : Request → Except Unit String),
      nonEmptyTableOrSentinel (WIKICOMMONSLINK a f)) ∧
    (∀ (a opt_namespaces : String) (f : Request → Except Unit (List String)),
      nonEmptyTableOrSentinel (WIKICATEGORYMEMBERS a opt_namespaces f)) ∧
    (∀ (a opt_namespaces : String) (f : Request → Except Unit (List String)),
      nonEmptyTableOrSentinel (WIKISUBCATEGORIES a opt_namespaces f)) ∧
    (∀ (a : String) (f : Request → Except Unit (List String)),
      nonEmptyTableOrSentinel (WIKICATEGORIES a f)) ∧
    (∀ (a opt_namespaces : String) (f : Request → Except Unit (List String)),
      nonEmptyTableOrSentinel (WIKIINBOUNDLINKS a opt_namespaces f)) ∧
    (∀ (a opt_namespaces : String) (f : Request → Except Unit (List String)),
      nonEmptyTableOrSentinel (WIKIOUTBOUNDLINKS a opt_namespaces f)) ∧
    (∀ (a : String) (f : Request → Except Unit (String × String)),
      nonEmptyTableOrSentinel (WIKIGEOCOORDINATES a f)) ∧
    (∀ (a opt_protocol opt_namespaces : String)
      (f : Request → Except Unit (List (String × String))),
      nonEmptyTableOrSentinel (WIKILINKSEARCH a opt_protocol opt_namespaces f)) ∧
    (∀ (a mode : String) (props : List String)
      (fE : Request → Except Unit (List (String × List WdStatement)))
      (fL : Request → Except Unit (List (String × String))),
      nonEmptyTableOrSentinel (WIKIDATAFACTS a mode props fE fL)) ∧
    (∀ (a start stop : String) (sum : Bool)
      (f : Request → Except Unit (List PageviewsItem)),
      nonEmptyTableOrSentinel (WIKIPAGEVIEWS a start stop sum f)) ∧
    (∀ (project a acc ag g start stop : String) (sum : Bool)
      (f : Request → Except Unit (List PageviewsItem)),
      nonEmptyTableOrSentinel
        (WIKIPAGEVIEWSPERARTICLE project a acc ag g start stop sum f)) ∧
    (∀ (project acc ag g start stop : String)
      (f : Request → Except Unit (List PageviewsItem)),
      nonEmptyTableOrSentinel (WIKIPAGEVIEWSAGGREGATE project acc ag g start stop f)) ∧
    (∀ (project acc d : String) (f : Request → Except Unit (List (String × Int))),
      nonEmptyTableOrSentinel (WIKIPAGEVIEWSTOP project acc d f)) ∧
    (∀ (project acc g start stop : String)
      (f : Request → Except Unit (List UniqueDevicesItem)),
      nonEmptyTableOrSentinel (WIKIUNIQUEDEVICES project acc g start stop f)) ∧
    (∀ (a start stop : String) (f : Request → Except Unit (List RevisionEntry)),
      nonEmptyTableOrSentinel (WIKIPAGEEDITS a start stop f)) ∧
    (∀ (a : String) (dym : Bool) (opt_namespaces : String)
      (f : Request → Except Unit SearchPayload),
      nonEmptyTableOrSentinel (WIKISEARCH a dym opt_namespaces f)) ∧
    (∀ (a : String) (f : Request → Except Unit (Option String)),
      nonEmptyTableOrSentinel (WIKIDATAQID a f)) ∧
    (∀ (qid : String) (t : List String) (f : Request → Except Unit (List (String × String))),
      nonEmptyTableOrSentinel (WIKIDATALABELS qid t f)) ∧
    (∀ (qid : String) (t : List String) (f : Request → Except Unit (List (String × String))),
      nonEmptyTableOrSentinel (WIKIDATADESCRIPTIONS qid t f)) ∧
    (∀ (queryId : Nat) (f : Request → Except Unit QuarryPayload),
      nonEmptyTableOrSentinel (WIKIQUARRY queryId f)) ∧
    (∀ (a : String) (f : Request → Except Unit (List String)),
      nonEmptyTableOrSentinel (GOOGLESUGGEST a f)) ∧
    (∀ (a : String) (radius : Int) (incl : Bool) (opt_namespaces : String)
      (f : Request → Except Unit (List GeoEntry)),
      nonEmptyTableOrSentinel (WIKIARTICLESAROUND a radius incl opt_namespaces f) ∨
        WIKIARTICLESAROUND a radius incl opt_namespaces f = .undef) ∧
    (∀ (a : String) (t : List String)
      (fT : Request → Except Unit (List (String × String)))
      (fS : Request → Except Unit (List String)),
      WIKIEXPAND a t fT fS = .str "" ∨ ∃ rows, WIKIEXPAND a t fT fS = .arr rows) ∧
    (∀ (a opt_namespaces : String) (fI fO : Request → Except Unit (List String)),
      (∃ rows, WIKIMUTUALLINKS a opt_namespaces fI fO = .ok (.arr rows)) ∨
        WIKIMUTUALLINKS a opt_namespaces fI fO = .error ()) ∧
    (∀ (a : String) (radius : Int) (incl : Bool) (opt_namespaces : String)
      (f : Request → Except Unit (List GeoEntry)) (rows : List Entry),
      WIKIARTICLESAROUND a radius incl opt_namespaces f = .arr rows →
      ∀ e ∈ rows, ∃ cs, e = Entry.row cs ∧ cs.length = (if incl then 4 else 3)) ∧
    (∀ (a opt_protocol opt_namespaces : String)
      (f : Request → Except Unit (List (String × String))) (rows : List Entry),
      WIKILINKSEARCH a opt_protocol opt_namespaces f = .arr rows →
      ∀ e ∈ rows, ∃ cs, e = Entry.row cs ∧ cs.length = 2) ∧
    (∀ (a start stop : String) (f : Request → Except Unit (List PageviewsItem))
      (rows : List Entry),
      WIKIPAGEVIEWS a start stop false f = .arr rows →
      ∀ e ∈ rows, ∃ cs, e = Entry.row cs ∧ cs.length = 2) ∧
    (∀ (project acc g start stop : String)
      (f : Request → Except Unit (List UniqueDevicesItem)) (rows : List Entry),
      WIKIUNIQUEDEVICES project acc g start stop f = .arr rows →
      ∀ e ∈ rows, ∃ cs, e = Entry.row cs ∧ cs.length = 2) ∧
    (∀ (a start stop : String) (f : Request → Except Unit (List RevisionEntry))
      (rows : List Entry),
      WIKIPAGEEDITS a start stop f = .arr rows →
      ∀ e ∈ rows, ∃ cs, e = Entry.row cs ∧ cs.length = 2) ∧
    (∀ (a : String) (t : List String)
      (f : Request → Except Unit (List (String × String))) (rows : List Entry),
      WIKITRANSLATE a t false false f = .arr rows →
      ∀ e ∈ rows, ∃ cs, e = Entry.row cs ∧ cs.length = 2) ∧
    (∀ (a : String) (t : List String)
      (f : Request → Except Unit (List (String × String))) (rows : List Entry),
      WIKITRANSLATE a t true false f = .arr rows →
      ∀ e ∈ rows, ∃ c, e = Entry.cell c) ∧
    (∀ (a : String) (f : Request → Except Unit (String × String)) (rows : List Entry),
      WIKIGEOCOORDINATES a f = .arr rows →
      ∀ e ∈ rows, ∃ cs, e = Entry.row cs ∧ cs.length = 2) ∧
    (∀ (a mode : String) (props : List String)
      (fE : Request → Except Unit (List (String × List WdStatement)))
      (fL : Request → Except Unit (List (String × String))) (rows : List Entry),
      WIKIDATAFACTS a mode props fE fL = .arr rows →
      ∀ e ∈ rows, ∃ cs, e = Entry.row cs ∧ cs.length = 2) ∧
    (∀ (a opt_namespaces : String) (f : Request → Except Unit SearchPayload)
      (rows : List Entry),
      WIKISEARCH a true opt_namespaces f = .arr rows →
      ∀ e ∈ rows, ∃ cs, e = Entry.row cs ∧ cs.length = 2) ∧
    (∀ (qid : String) (t : List String)
      (f : Request → Except Unit (List (String × String))) (rows : List Entry),
      WIKIDATALABELS qid t f = .arr rows →
      ∀ e ∈ rows, ∃ cs, e = Entry.row cs ∧ cs.length = 2) ∧
    (∀ (qid : String) (t : List String)
      (f : Request → Except Unit (List (String × String))) (rows : List Entry),
      WIKIDATADESCRIPTIONS qid t f = .arr rows →
      ∀ e ∈ rows, ∃ cs, e = Entry.row cs ∧ cs.length = 2) ∧
    (∀ (project a acc ag g start stop : String)
      (f : Request → Except Unit (List PageviewsItem)) (rows : List Entry),
      WIKIPAGEVIEWSPERARTICLE project a acc ag g start stop false f = .arr rows →
      ∀ e ∈ rows, ∃ cs, e = Entry.row cs ∧ cs.length = 2) ∧
    (∀ (project acc ag g start stop : String)
      (f : Request → Except Unit (List PageviewsItem)) (rows : List Entry),
      WIKIPAGEVIEWSAGGREGATE project acc ag g start stop f = .arr rows →
      ∀ e ∈ rows, ∃ cs, e = Entry.row cs ∧ cs.length = 2) ∧
    (∀ (project acc d : String) (f : Request → Except Unit (List (String × Int)))
      (rows : List Entry),
      WIKIPAGEVIEWSTOP project acc d f = .arr rows →
      ∀ e ∈ rows, ∃ cs, e = Entry.row cs ∧ cs.length = 2) ∧
    (∀ (a : String) (t : List String)
      (fT : Request → Except Unit (List (String × String)))
      (fS : Request → Except Unit (List String)) (rows : List Entry),
      WIKIEXPAND a t fT fS = .arr rows →
      ∀ e ∈ rows, ∃ cs, e = Entry.row cs ∧ 2 ≤ cs.length) ∧
    (∀ (queryId : Nat) (f : Request → Except Unit QuarryPayload)
      (payload : QuarryPayload) (rows : List Entry), queryId ≠ 0 →
      f (wikiquarryRequest queryId) = .ok payload →
      WIKIQUARRY queryId f = .arr rows →
      rows = Entry.row payload.headers :: payload.rows.map Entry.row) := by
  refine ⟨?_, ?_, ?_, ?_, ?_, ?_, ?_, ?_, ?_, ?_, ?_, ?_, ?_, ?_, ?_, ?_, ?_, ?_,
    ?_, ?_, ?_, ?_, ?_, ?_, ?_, ?_, ?_, ?_, ?_, ?_, ?_, ?_, ?_, ?_, ?_, ?_, ?_,
    ?_, ?_, ?_, ?_, ?_, ?_⟩
  · intro a ns f
    simp only [WIKISYNONYMS]
    repeat' split
    all_goals first
      | exact Or.inl rfl
      | exact nonEmptyTableOrSentinel_resultsOrEmpty _
  · intro a t sh f
    simp only [WIKITRANSLATE]
    repeat' split
    all_goals first
      | exact Or.inl rfl
      | exact nonEmptyTableOrSentinel_resultsOrEmpty _
      | simp_all
  · intro a f
    simp only [WIKICOMMONSLINK]
    repeat' split
    all_goals first
      | exact Or.inl rfl
      | exact nonEmptyTableOrSentinel_resultsOrEmpty _
  · intro a ns f
    simp only [WIKICATEGORYMEMBERS]
    repeat' split
    all_goals first
      | exact Or.inl rfl
      | exact nonEmptyTableOrSentinel_resultsOrEmpty _
  · intro a ns f
    simp only [WIKISUBCATEGORIES]
    repeat' split
    all_goals first
      | exact Or.inl rfl
      | exact nonEmptyTableOrSentinel_resultsOrEmpty _
  · intro a f
    simp only [WIKICATEGORIES]
    repeat' split
    all_goals first
      | exact Or.inl rfl
      | exact nonEmptyTableOrSentinel_resultsOrEmpty _
  · intro a ns f
    simp only [WIKIINBOUNDLINKS]
    repeat' split
    all_goals first
      | exact Or.inl rfl
      | exact nonEmptyTableOrSentinel_resultsOrEmpty _
  · intro a ns f
    simp only [WIKIOUTBOUNDLINKS]
    repeat' split
    all_goals first
      | exact Or.inl rfl
      | exact nonEmptyTableOrSentinel_resultsOrEmpty _
  · intro a f
    simp only [WIKIGEOCOORDINATES]
    repeat' split
    all_goals first
      | exact Or.inl rfl
      | exact nonEmptyTableOrSentinel_resultsOrEmpty _
  · intro a p ns f
    simp only [WIKILINKSEARCH]
    repeat' split
    all_goals first
      | exact Or.inl rfl
      | exact nonEmptyTableOrSentinel_resultsOrEmpty _
  · intro a m props fE fL
    simp only [WIKIDATAFACTS]
    repeat' split
    all_goals first
      | exact Or.inl rfl
      | exact nonEmptyTableOrSentinel_resultsOrEmpty _
  · intro a s e sum f
    simp only [WIKIPAGEVIEWS]
    repeat' split
    all_goals first
      | exact Or.inl rfl
      | exact nonEmptyTableOrSentinel_resultsOrEmpty _
      | exact Or.inr ⟨_, rfl, by simp⟩
  · intro p a acc ag g s e sum f
    simp only [WIKIPAGEVIEWSPERARTICLE]
    repeat' split
    all_goals first
      | exact Or.inl rfl
      | exact nonEmptyTableOrSentinel_resultsOrEmpty _
      | exact Or.inr ⟨_, rfl, by simp⟩
  · intro p acc ag g s e f
    simp only [WIKIPAGEVIEWSAGGREGATE]
    repeat' split
    all_goals first
      | exact Or.inl rfl
      | exact nonEmptyTableOrSentinel_resultsOrEmpty _
  · intro p acc d f
    simp only [WIKIPAGEVIEWSTOP]
    repeat' split
    all_goals first
      | exact Or.inl rfl
      | exact nonEmptyTableOrSentinel_resultsOrEmpty _
  · intro p acc g s e f
    simp only [WIKIUNIQUEDEVICES]
    repeat' split
    all_goals first
      | exact Or.inl rfl
      | exact nonEmptyTableOrSentinel_resultsOrEmpty _
  · intro a s e f
    simp only [WIKIPAGEEDITS, wikipageeditsProcess]
    repeat' split
    all_goals first
      | exact Or.inl rfl
      | exact nonEmptyTableOrSentinel_resultsOrEmpty _
  · intro a dym ns f
    simp only [WIKISEARCH]
    repeat' split
    all_goals first
      | exact Or.inl rfl
      | exact nonEmptyTableOrSentinel_resultsOrEmpty _
  · intro a f
    simp only [WIKIDATAQID]
    repeat' split
    all_goals first
      | exact Or.inl rfl
      | exact nonEmptyTableOrSentinel_resultsOrEmpty _
  · intro q t f
    simp only [WIKIDATALABELS]
    repeat' split
    all_goals first
      | exact Or.inl rfl
      | exact nonEmptyTableOrSentinel_resultsOrEmpty _
  · intro q t f
    simp only [WIKIDATADESCRIPTIONS]
    repeat' split
    all_goals first
      | exact Or.inl rfl
      | exact nonEmptyTableOrSentinel_resultsOrEmpty _
  · intro q f
    simp only [WIKIQUARRY]
    repeat' split
    all_goals first
      | exact Or.inl rfl
      | exact nonEmptyTableOrSentinel_resultsOrEmpty _
  · intro a f
    simp only [GOOGLESUGGEST]
    repeat' split
    all_goals first
      | exact Or.inl rfl
      | exact nonEmptyTableOrSentinel_resultsOrEmpty _
  · intro a r incl ns f
    simp only [WIKIARTICLESAROUND]
    repeat' split
    all_goals first
      | exact Or.inl (Or.inl rfl)
      | exact Or.inl (nonEmptyTableOrSentinel_resultsOrEmpty _)
      | exact Or.inr rfl
  · intro a t fT fS
    simp only [WIKIEXPAND]
    repeat' split
    all_goals first
      | exact Or.inl rfl
      | exact Or.inr ⟨_, rfl⟩
  · intro a ns fI fO
    rw [WIKIMUTUALLINKS]
    cases WIKIINBOUNDLINKS a ns fI with
    | str s => exact Or.inr rfl
    | arr l => exact Or.inl ⟨_, rfl⟩
    | obj m => exact Or.inr rfl
    | undef => exact Or.inr rfl
  · intro a r incl ns f rows h e he
    by_cases h1 : a = ""
    · rw [WIKIARTICLESAROUND, if_pos h1] at h; cases h
    by_cases hp : isLatLonPoint (parseLocator a).2
    · simp only [WIKIARTICLESAROUND] at h
      rw [if_neg h1, if_pos hp] at h
      rcases hresp : f (wikiarticlesaroundPointRequest (parseLocator a).1
          (String.mk ((jsSplit ',' (parseLocator a).2.toList).getD 0 []))
          (String.mk ((jsSplit ',' (parseLocator a).2.toList).getD 1 [])) r ns) with u | entries
      all_goals rw [hresp] at h; have := resultsOrEmpty_eq_arr h; subst this
      · cases he
      · obtain ⟨x, _, rfl⟩ := List.mem_map.mp he
        cases incl <;> exact ⟨_, rfl, rfl⟩
    by_cases h2 : (parseLocator a).2 = ""
    · simp only [WIKIARTICLESAROUND] at h
      rw [if_neg h1, if_neg hp, if_pos h2] at h; cases h
    · simp only [WIKIARTICLESAROUND] at h
      rw [if_neg h1, if_neg hp, if_neg h2] at h
      rcases hresp : f (wikiarticlesaroundTitleRequest (parseLocator a).1
          (parseLocator a).2 r ns) with u | entries
      all_goals rw [hresp] at h; have := resultsOrEmpty_eq_arr h; subst this
      · cases he
      · obtain ⟨x, _, rfl⟩ := List.mem_map.mp he
        cases incl <;> exact ⟨_, rfl, rfl⟩
  · intro a p ns f rows h e he
    by_cases h1 : a = ""
    · rw [WIKILINKSEARCH, if_pos h1] at h; cases h
    by_cases h2 : (parseLocator a).2 = ""
    · rw [WIKILINKSEARCH, if_neg h1, if_pos h2] at h; cases h
    rw [WIKILINKSEARCH, if_neg h1, if_neg h2] at h
    rcases hresp : f (wikilinksearchRequest (parseLocator a).1 (parseLocator a).2 p ns)
      with u | entries
    all_goals rw [hresp] at h; have := resultsOrEmpty_eq_arr h; subst this
    · cases he
    · obtain ⟨x, _, rfl⟩ := List.mem_map.mp he
      exact ⟨_, rfl, rfl⟩
  · intro a s e f rows h x hx
    by_cases h1 : a = ""
    · rw [WIKIPAGEVIEWS, if_pos h1] at h; cases h
    by_cases h2 : (parseLocator a).2 = ""
    · rw [WIKIPAGEVIEWS, if_neg h1, if_pos h2] at h; cases h
    rw [WIKIPAGEVIEWS, if_neg h1, if_neg h2] at h
    rcases hresp : f (wikipageviewsRequest (parseLocator a).1 (parseLocator a).2 s e)
      with u | items
    all_goals rw [hresp] at h
    all_goals simp only [Bool.false_eq_true, if_false] at h
    all_goals have := resultsOrEmpty_eq_arr h
    all_goals subst this
    · cases hx
    · obtain ⟨i, _, rfl⟩ := List.mem_map.mp (List.mem_reverse.mp hx)
      exact ⟨_, rfl, rfl⟩
  · intro p acc g s e f rows h x hx
    by_cases h1 : p = ""
    · rw [WIKIUNIQUEDEVICES, if_pos h1] at h; cases h
    rw [WIKIUNIQUEDEVICES, if_neg h1] at h
    rcases hresp : f (wikiuniquedevicesRequest p acc g s e) with u | items
    all_goals rw [hresp] at h; have := resultsOrEmpty_eq_arr h; subst this
    · cases hx
    · obtain ⟨i, _, rfl⟩ := List.mem_map.mp hx
      exact ⟨_, rfl, rfl⟩
  · intro a s e f rows h x hx
    by_cases h1 : a = ""
    · rw [WIKIPAGEEDITS, if_pos h1] at h; cases h
    by_cases h2 : (parseLocator a).2 = ""
    · rw [WIKIPAGEEDITS, if_neg h1, if_pos h2] at h; cases h
    rw [WIKIPAGEEDITS, if_neg h1, if_neg h2] at h
    simp only [wikipageeditsProcess] at h
    rcases hresp : f (wikipageeditsRequest (parseLocator a).1 (parseLocator a).2 s e)
      with u | entries
    all_goals rw [hresp] at h; have := resultsOrEmpty_eq_arr h; subst this
    · cases hx
    · obtain ⟨i, _, rfl⟩ := List.mem_map.mp hx
      exact ⟨_, rfl, rfl⟩
  · intro a t f rows h x hx
    by_cases h1 : a = ""
    · rw [WIKITRANSLATE, if_pos h1] at h; cases h
    by_cases h2 : (parseLocator a).2 = ""
    · rw [WIKITRANSLATE, if_neg h1, if_pos h2] at h; cases h
    rw [WIKITRANSLATE, if_neg h1, if_neg h2] at h
    simp only [Bool.false_eq_true, if_false] at h
    have := resultsOrEmpty_eq_arr h
    subst this
    obtain ⟨p, _, rfl⟩ := List.mem_map.mp hx
    exact ⟨_, rfl, rfl⟩
  · intro a t f rows h x hx
    by_cases h1 : a = ""
    · rw [WIKITRANSLATE, if_pos h1] at h; cases h
    by_cases h2 : (parseLocator a).2 = ""
    · rw [WIKITRANSLATE, if_neg h1, if_pos h2] at h; cases h
    rw [WIKITRANSLATE, if_neg h1, if_neg h2] at h
    simp only [Bool.false_eq_true, if_false, eq_self_iff_true, if_true] at h
    have := resultsOrEmpty_eq_arr h
    subst this
    obtain ⟨p, _, rfl⟩ := List.mem_map.mp hx
    exact ⟨_, rfl⟩
  · intro a f rows h x hx
    by_cases h1 : a = ""
    · rw [WIKIGEOCOORDINATES, if_pos h1] at h; cases h
    by_cases h2 : (parseLocator a).2 = ""
    · rw [WIKIGEOCOORDINATES, if_neg h1, if_pos h2] at h; cases h
    rw [WIKIGEOCOORDINATES, if_neg h1, if_neg h2] at h
    rcases hresp : f (wikigeocoordinatesRequest (parseLocator a).1 (parseLocator a).2)
      with u | co
    all_goals rw [hresp] at h; have := resultsOrEmpty_eq_arr h; subst this
    · cases hx
    · rcases List.mem_singleton.mp hx with rfl
      exact ⟨_, rfl, rfl⟩
  · intro a m props fE fL rows h x hx
    by_cases h1 : a = ""
    · rw [WIKIDATAFACTS, if_pos h1] at h; cases h
    by_cases h2 : (parseLocator a).2 = ""
    · rw [WIKIDATAFACTS, if_neg h1, if_pos h2] at h; cases h
    rw [WIKIDATAFACTS, if_neg h1, if_neg h2] at h
    dsimp only at h
    rcases hresp : fE (if isQidStr (parseLocator a).2
        then wikidatafactsQidRequest (parseLocator a).2
        else wikidatafactsTitleRequest (parseLocator a).1 (parseLocator a).2)
      with u | claims
    all_goals rw [hresp] at h; have := resultsOrEmpty_eq_arr h; subst this
    · cases hx
    · obtain ⟨c, _, hc⟩ := List.mem_flatMap.mp hx
      split at hc
      · cases hc
      · rcases List.mem_append.mp hc with h' | h'
        · split at h'
          · exact mem_wdFactRow h'
          · cases h'
        · split at h'
          · obtain ⟨iv, _, hiv⟩ := List.mem_flatMap.mp h'
            split at hiv
            · cases hiv
            · exact mem_wdFactRow hiv
          · cases h'
  · intro a ns f rows h x hx
    by_cases h1 : a = ""
    · rw [WIKISEARCH, if_pos h1] at h; cases h
    by_cases h2 : (parseLocator a).2 = ""
    · rw [WIKISEARCH, if_neg h1, if_pos h2] at h; cases h
    rw [WIKISEARCH, if_neg h1, if_neg h2] at h
    rcases hresp : f (wikisearchRequest (parseLocator a).1 (parseLocator a).2 ns)
      with u | payload
    all_goals rw [hresp] at h
    · have := resultsOrEmpty_eq_arr h; subst this; cases hx
    · simp only [eq_self_iff_true, if_true] at h
      have := resultsOrEmpty_eq_arr h; subst this
      obtain ⟨it, _, rfl⟩ := List.mem_map.mp hx
      by_cases hi : it.1 = 0
      · rw [if_pos hi]; exact ⟨_, rfl, rfl⟩
      · rw [if_neg hi]; exact ⟨_, rfl, rfl⟩
  · intro q t f rows h x hx
    by_cases h1 : q = ""
    · rw [WIKIDATALABELS, if_pos h1] at h; cases h
    rw [WIKIDATALABELS, if_neg h1] at h
    dsimp only at h
    rcases hresp : f (wikidatalabelsRequest "labels" q (wikidataTargetLanguages t))
      with u | labels
    all_goals rw [hresp] at h; have := resultsOrEmpty_eq_arr h; subst this
    · cases hx
    · simp only [wikidataLabelRows] at hx
      obtain ⟨lg, _, rfl⟩ := List.mem_map.mp hx
      exact ⟨_, rfl, rfl⟩
  · intro q t f rows h x hx
    by_cases h1 : q = ""
    · rw [WIKIDATADESCRIPTIONS, if_pos h1] at h; cases h
    rw [WIKIDATADESCRIPTIONS, if_neg h1] at h
    dsimp only at h
    rcases hresp : f (wikidatalabelsRequest "descriptions" q (wikidataTargetLanguages t))
      with u | labels
    all_goals rw [hresp] at h; have := resultsOrEmpty_eq_arr h; subst this
    · cases hx
    · simp only [wikidataLabelRows] at hx
      obtain ⟨lg, _, rfl⟩ := List.mem_map.mp hx
      exact ⟨_, rfl, rfl⟩
  · intro p a acc ag g s3 e3 f rows h x hx
    by_cases h1 : p = ""
    · rw [WIKIPAGEVIEWSPERARTICLE, if_pos h1] at h; cases h
    by_cases h2 : a = ""
    · rw [WIKIPAGEVIEWSPERARTICLE, if_neg h1, if_pos h2] at h; cases h
    rw [WIKIPAGEVIEWSPERARTICLE, if_neg h1, if_neg h2] at h
    simp only [Bool.false_eq_true, if_false] at h
    have := resultsOrEmpty_eq_arr h; subst this
    obtain ⟨i, _, rfl⟩ := List.mem_map.mp (List.mem_reverse.mp hx)
    exact ⟨_, rfl, rfl⟩
  · intro p acc ag g s3 e3 f rows h x hx
    by_cases h1 : p = ""
    · rw [WIKIPAGEVIEWSAGGREGATE, if_pos h1] at h; cases h
    rw [WIKIPAGEVIEWSAGGREGATE, if_neg h1] at h
    have := resultsOrEmpty_eq_arr h; subst this
    obtain ⟨i, _, rfl⟩ := List.mem_map.mp (List.mem_reverse.mp hx)
    exact ⟨_, rfl, rfl⟩
  · intro p acc d f rows h x hx
    by_cases h1 : p = ""
    · rw [WIKIPAGEVIEWSTOP, if_pos h1] at h; cases h
    rw [WIKIPAGEVIEWSTOP, if_neg h1] at h
    rcases hresp : f (wikipageviewstopRequest p acc d) with u | arts
    all_goals rw [hresp] at h; have := resultsOrEmpty_eq_arr h; subst this
    · cases hx
    · obtain ⟨ar, _, rfl⟩ := List.mem_map.mp hx
      exact ⟨_, rfl, rfl⟩
  · intro a t fT fS rows h x hx
    by_cases h1 : a = ""
    · rw [WIKIEXPAND, if_pos h1] at h; cases h
    by_cases h2 : (parseLocator a).2 = ""
    · rw [WIKIEXPAND, if_neg h1, if_pos h2] at h; cases h
    rw [WIKIEXPAND, if_neg h1, if_neg h2] at h
    dsimp only at h
    rcases hw : WIKITRANSLATE a (objKeysDedup t) false true fT
      with s | l | translations | _
    all_goals rw [hw] at h
    · have h' : JsVal.arr ([] : List Entry) = JsVal.arr rows := h
      obtain rfl : rows = [] := ((JsVal.arr.injEq _ _).mp h').symm
      cases hx
    · have h' : JsVal.arr ([] : List Entry) = JsVal.arr rows := h
      obtain rfl : rows = [] := ((JsVal.arr.injEq _ _).mp h').symm
      cases hx
    · have h' : JsVal.arr (translations.map fun p =>
          Entry.row ([Cell.str p.1] ++ jsConcatCells [Cell.str p.2]
            (WIKISYNONYMS (p.1 ++ ":" ++ p.2) "" fS))) = JsVal.arr rows := h
      have hrows := ((JsVal.arr.injEq _ _).mp h').symm
      subst hrows
      obtain ⟨p, _, rfl⟩ := List.mem_map.mp hx
      refine ⟨_, rfl, ?_⟩
      have := jsConcatCells_length_ge (Cell.str p.2)
        (WIKISYNONYMS (p.1 ++ ":" ++ p.2) "" fS)
      simp only [List.length_append, List.length_cons, List.length_nil]
      omega
    · have h' : JsVal.arr ([] : List Entry) = JsVal.arr rows := h
      obtain rfl : rows = [] := ((JsVal.arr.injEq _ _).mp h').symm
      cases hx
  · intro qid f payload rows hq hresp h
    rw [WIKIQUARRY, if_neg hq, hresp] at h
    exact (resultsOrEmpty_eq_arr h).symm

theorem C2_witness :
    nonEmptyTableOrSentinel (WIKISYNONYMS "en:Berlin" ""
      (fun _ => Except.ok ["A"])) ∧
    (WIKILINKSEARCH "en:github.com" "" "" (fun _ => Except.ok [("T", "U")]) =
      .arr [Entry.row [.str "T", .str "U"]]) ∧
    (∀ e ∈ [Entry.row [Cell.str "T", Cell.str "U"]],
      ∃ cs, e = Entry.row cs ∧ cs.length = 2) ∧
    (WIKITRANSLATE "en:Berlin" ["de"] false false (fun _ => Except.error ()) =
      .arr [Entry.row [.str "de", .str "Berlin"]]) ∧
    (∀ e ∈ [Entry.row [Cell.str "de", Cell.str "Berlin"]],
      ∃ cs, e = Entry.row cs ∧ cs.length = 2) := by
  obtain ⟨hsyn, h2, h3, h4, h5, h6, h7, h8, h9, h10, h11, h12, h13, h14, h15, h16,
    h17, h18, h19, h20, h21, h22, h23, h24, h25, h26, h27, h28, h29, h30, h31,
    h32, h33, h34, h35, h36, h37, h38, h39, h40, h41, h42, h43⟩ :=
    C2_amended_nonempty_or_sentinel
  exact ⟨hsyn "en:Berlin" "" _, by decide,
    h28 "en:github.com" "" "" (fun _ => Except.ok [("T", "U")])
      [Entry.row [.str "T", .str "U"]] (by decide),
    by decide,
    h32 "en:Berlin" ["de"] (fun _ => Except.error ())
      [Entry.row [.str "de", .str "Berlin"]] (by decide)⟩

theorem mem_objKeysDedup_go (l : List String) :
    ∀ (acc : List String) (x : String),
      (x ∈ l.foldl (fun acc k => if k ∈ acc then acc else acc ++ [k]) acc) ↔
        (x ∈ acc ∨ x ∈ l) := by
  induction l with
  | nil => intro acc x; simp
  | cons k t ih =>
    intro acc x
    rw [List.foldl_cons]
    by_cases hk : k ∈ acc
    · rw [if_pos hk, ih]
      constructor
      · rintro (h | h)
        · exact Or.inl h
        · exact Or.inr (List.mem_cons_of_mem _ h)
      · rintro (h | h)
        · exact Or.inl h
        · rcases List.mem_cons.mp h with rfl | h
          · exact Or.inl hk
          · exact Or.inr h
    · rw [if_neg hk, ih]
      simp [List.mem_append, List.mem_cons]
      tauto

theorem mem_keySplit (p : String → Bool) (m : List String) (x : String) :
    (x ∈ (m.filter p).insertionSort keyNumLe ++ m.filter (fun k => !(p k))) ↔ x ∈ m := by
  simp only [List.mem_append, List.mem_insertionSort, List.mem_filter,
    Bool.not_eq_true']
  rcases hp : p x with _ | _ <;> simp [hp]

theorem mem_objKeysDedup (l : List String) (x : String) :
    x ∈ objKeysDedup l ↔ x ∈ l := by
  rw [objKeysDedup, mem_keySplit, objKeysInsertionOrder, mem_objKeysDedup_go]
  simp

theorem objKeysDedup_go_nodup (l : List String) :
    ∀ acc : List String, acc.Nodup →
      (l.foldl (fun acc k => if k ∈ acc then acc else acc ++ [k]) acc).Nodup := by
  induction l with
  | nil => intro acc h; simpa using h
  | cons k t ih =>
    intro acc h
    rw [List.foldl_cons]
    by_cases hk : k ∈ acc
    · rw [if_pos hk]; exact ih acc h
    · rw [if_neg hk]
      exact ih _ (by simp [List.nodup_append, h, hk])

theorem objKeysInsertionOrder_nodup (l : List String) :
    (objKeysInsertionOrder l).Nodup :=
  objKeysDedup_go_nodup l [] List.nodup_nil

theorem keySplit_nodup (p : String → Bool) {m : List String} (hm : m.Nodup) :
    ((m.filter p).insertionSort keyNumLe ++ m.filter (fun k => !(p k))).Nodup := by
  rw [List.nodup_append]
  refine ⟨(List.perm_insertionSort keyNumLe _).nodup_iff.mpr (hm.filter _),
    hm.filter _, ?_⟩
  intro x hx hx'
  rw [List.mem_insertionSort] at hx
  have h1 := (List.mem_filter.mp hx).2
  have h2 := (List.mem_filter.mp hx').2
  rw [h1] at h2
  cases h2

theorem objKeysDedup_nodup (l : List String) : (objKeysDedup l).Nodup :=
  keySplit_nodup _ (objKeysInsertionOrder_nodup l)

theorem objKeysDedup_go_of_nodup (l : List String) :
    ∀ acc : List String, l.Nodup → (∀ x ∈ l, x ∉ acc) →
      l.foldl (fun acc k => if k ∈ acc then acc else acc ++ [k]) acc = acc ++ l := by
  induction l with
  | nil => intro acc _ _; simp
  | cons k t ih =>
    intro acc hnd hdisj
    rw [List.foldl_cons, if_neg (hdisj k (List.mem_cons_self k t))]
    rw [ih (acc ++ [k]) hnd.of_cons]
    · simp
    · intro x hx
      simp only [List.mem_append, List.mem_singleton]
      rintro (h | rfl)
      · exact hdisj x (List.mem_cons_of_mem _ hx) h
      · exact (List.nodup_cons.mp hnd).1 hx

theorem objKeysInsertionOrder_of_nodup {l : List String} (h : l.Nodup) :
    objKeysInsertionOrder l = l := by
  rw [objKeysInsertionOrder, objKeysDedup_go_of_nodup l [] h (by simp)]
  simp

theorem keySplit_keySplit (p : String → Bool) (m : List String) :
    List.insertionSort keyNumLe
        (List.filter p (List.insertionSort keyNumLe (List.filter p m) ++
          List.filter (fun k => !(p k)) m)) ++
      List.filter (fun k => !(p k)) (List.insertionSort keyNumLe (List.filter p m) ++
        List.filter (fun k => !(p k)) m) =
      List.insertionSort keyNumLe (List.filter p m) ++
        List.filter (fun k => !(p k)) m := by
  have hSp : ∀ a ∈ List.insertionSort keyNumLe (List.filter p m), p a := fun a ha =>
    (List.mem_filter.mp ((List.mem_insertionSort _).mp ha)).2
  have hNp : ∀ a ∈ List.filter (fun k => !(p k)) m, ¬ p a := fun a ha => by
    have := (List.mem_filter.mp ha).2
    simp only [Bool.not_eq_true'] at this
    simp [this]
  have hNfp : List.filter p (List.filter (fun k => !(p k)) m) = [] :=
    List.filter_eq_nil_iff.mpr hNp
  have hSnp : List.filter (fun k => !(p k))
      (List.insertionSort keyNumLe (List.filter p m)) = [] :=
    List.filter_eq_nil_iff.mpr (fun a ha => by simp [hSp a ha])
  have hNn : List.filter (fun k => !(p k)) (List.filter (fun k => !(p k)) m) =
      List.filter (fun k => !(p k)) m :=
    List.filter_eq_self.mpr (fun a ha => (List.mem_filter.mp ha).2)
  rw [List.filter_append, List.filter_append,
    List.filter_eq_self.mpr hSp, hNfp, hSnp, hNn,
    List.append_nil, List.nil_append,
    (List.sorted_insertionSort keyNumLe (List.filter p m)).insertionSort_eq]

theorem objKeysDedup_idem (l : List String) :
    objKeysDedup (objKeysDedup l) = objKeysDedup l := by
  conv_lhs => rw [objKeysDedup, objKeysInsertionOrder_of_nodup (objKeysDedup_nodup l),
    objKeysDedup]
  rw [keySplit_keySplit]
  rw [objKeysDedup]

theorem objKeysDedup_perm_of_mem_iff {t1 t2 : List String}
    (h : ∀ x, x ∈ t1 ↔ x ∈ t2) : (objKeysDedup t1).Perm (objKeysDedup t2) :=
  (List.perm_ext_iff_of_nodup (objKeysDedup_nodup t1) (objKeysDedup_nodup t2)).mpr
    (fun x => by rw [mem_objKeysDedup, mem_objKeysDedup]; exact h x)

theorem contains_eq_of_mem_iff {l1 l2 : List String}
    (h : ∀ x, x ∈ l1 ↔ x ∈ l2) (x : String) : l1.contains x = l2.contains x := by
  apply Bool.eq_iff_iff.mpr
  rw [List.contains_eq_any_beq, List.contains_eq_any_beq]
  simp only [List.any_eq_true]
  constructor
  · rintro ⟨y, hy, hb⟩; exact ⟨y, (h y).mp hy, hb⟩
  · rintro ⟨y, hy, hb⟩; exact ⟨y, (h y).mpr hy, hb⟩

theorem isEmpty_eq_of_perm {l1 l2 : List String} (h : l1.Perm l2) :
    l1.isEmpty = l2.isEmpty := by
  have hlen := h.length_eq
  cases l1 <;> cases l2 <;> simp_all

theorem objSet_perm {m1 m2 : List (String × String)} (h : m1.Perm m2) (k v : String) :
    (objSet m1 k v).Perm (objSet m2 k v) := by
  have hany : m1.any (fun p => p.1 = k) = m2.any (fun p => p.1 = k) := by
    apply Bool.eq_iff_iff.mpr
    simp only [List.any_eq_true]
    constructor
    · rintro ⟨x, hx, hp⟩; exact ⟨x, h.mem_iff.mp hx, hp⟩
    · rintro ⟨x, hx, hp⟩; exact ⟨x, h.mem_iff.mpr hx, hp⟩
  rw [objSet, objSet, hany]
  by_cases hc : m2.any (fun p => p.1 = k) = true
  · rw [if_pos hc, if_pos hc]
    exact h.map _
  · rw [if_neg hc, if_neg hc]
    exact h.append_right _

theorem foldl_objSet_fresh (v : String) :
    ∀ (t : List String) (m : List (String × String)), t.Nodup →
      (∀ k ∈ t, ∀ q ∈ m, q.1 ≠ k) →
      t.foldl (fun m tl => if tl = "" then m else objSet m tl v) m =
        m ++ (t.filter (fun tl => tl ≠ "")).map (fun k => (k, v)) := by
  intro t
  induction t with
  | nil => intro m _ _; simp
  | cons k₁ t' ih =>
    intro m hnd hfresh
    rw [List.foldl_cons]
    by_cases hk : k₁ = ""
    · rw [if_pos hk, ih m hnd.of_cons
        (fun k hkt q hq => hfresh k (List.mem_cons_of_mem _ hkt) q hq)]
      subst hk
      simp
    · rw [if_neg hk]
      have hnotany : m.any (fun q => q.1 = k₁) = false := by
        rw [List.any_eq_false]
        intro q hq
        simpa using hfresh k₁ (List.mem_cons_self k₁ t') q hq
      rw [objSet, hnotany, if_neg Bool.false_ne_true]
      rw [ih (m ++ [(k₁, v)]) hnd.of_cons ?fresh]
      case fresh =>
        intro k hkt q hq
        rcases List.mem_append.mp hq with h | h
        · exact hfresh k (List.mem_cons_of_mem _ hkt) q h
        · rcases List.mem_singleton.mp h with rfl
          intro e
          exact (List.nodup_cons.mp hnd).1 (by rw [show k₁ = k from e]; exact hkt)
      rw [List.filter_cons_of_pos (by simpa using hk), List.map_cons]
      simp

theorem prefill_perm {t1 t2 : List String} (v : String) (h : t1.Perm t2)
    (h1 : t1.Nodup) (h2 : t2.Nodup) :
    (t1.foldl (fun m tl => if tl = "" then m else objSet m tl v) []).Perm
      (t2.foldl (fun m tl => if tl = "" then m else objSet m tl v) []) := by
  rw [foldl_objSet_fresh v t1 [] h1 (by simp), foldl_objSet_fresh v t2 [] h2 (by simp)]
  simpa using (h.filter _).map _

theorem foldl_step_perm (skip : String × String → Bool) :
    ∀ (entries : List (String × String)) {m1 m2 : List (String × String)},
      m1.Perm m2 →
      (entries.foldl (fun m e => if skip e then m else objSet m e.1 e.2) m1).Perm
        (entries.foldl (fun m e => if skip e then m else objSet m e.1 e.2) m2) := by
  intro entries
  induction entries with
  | nil => intro m1 m2 h; simpa using h
  | cons e es ih =>
    intro m1 m2 h
    rw [List.foldl_cons, List.foldl_cons]
    by_cases hs : skip e = true
    · rw [if_pos hs, if_pos hs]; exact ih h
    · rw [if_neg hs, if_neg hs]; exact ih (objSet_perm h e.1 e.2)

theorem JsValPerm_resultsOrEmpty {l1 l2 : List Entry} (h : l1.Perm l2) :
    JsValPerm (resultsOrEmpty l1) (resultsOrEmpty l2) := by
  have hlen := h.length_eq
  rw [resultsOrEmpty, resultsOrEmpty, hlen]
  by_cases hp : l2.length > 0
  · rw [if_pos hp, if_pos hp]
    exact h
  · rw [if_neg hp, if_neg hp]
    rfl

theorem wikitranslate_perm (a : String) (t1 t2 : List String) (sh ro : Bool)
    (f : Request → Except Unit (List (String × String)))
    (hset : ∀ x, x ∈ t1 ↔ x ∈ t2) :
    JsValPerm (WIKITRANSLATE a t1 sh ro f) (WIKITRANSLATE a t2 sh ro f) := by
  by_cases ha : a = ""
  · simp [WIKITRANSLATE, ha, JsValPerm]
  by_cases ht : (parseLocator a).2 = ""
  · simp [WIKITRANSLATE, if_neg ha, ht, JsValPerm]
  have hd1 := objKeysDedup_nodup t1
  have hd2 := objKeysDedup_nodup t2
  have hperm := objKeysDedup_perm_of_mem_iff hset
  have hmem : ∀ x, x ∈ objKeysDedup t1 ↔ x ∈ objKeysDedup t2 := fun x => by
    rw [mem_objKeysDedup, mem_objKeysDedup]; exact hset x
  simp only [WIKITRANSLATE]
  rw [if_neg ha, if_neg ha, if_neg ht, if_neg ht]
  have hpre := prefill_perm (jsUnderscoresToSpaces (parseLocator a).2) hperm hd1 hd2
  cases hf : f (wikitranslateRequest (parseLocator a).1 (parseLocator a).2) with
  | error u =>
    cases ro with
    | false => exact JsValPerm_resultsOrEmpty (hpre.map _)
    | true => exact hpre
  | ok entries =>
    have hstepf : (fun (m : List (String × String)) (e : String × String) =>
        if (!(objKeysDedup t2).isEmpty) && !((objKeysDedup t2).contains e.1) then m
        else objSet m e.1 e.2) =
        (fun m e =>
        if (!(objKeysDedup t1).isEmpty) && !((objKeysDedup t1).contains e.1) then m
        else objSet m e.1 e.2) := by
      funext m e
      rw [contains_eq_of_mem_iff hmem e.1, isEmpty_eq_of_perm hperm]
    have hres : (objSet (entries.foldl
        (fun m e => if (!(objKeysDedup t1).isEmpty) && !((objKeysDedup t1).contains e.1)
          then m else objSet m e.1 e.2)
        ((objKeysDedup t1).foldl (fun m tl => if tl = "" then m
          else objSet m tl (jsUnderscoresToSpaces (parseLocator a).2)) []))
        (parseLocator a).1 (jsUnderscoresToSpaces (parseLocator a).2)).Perm
        (objSet (entries.foldl
        (fun m e => if (!(objKeysDedup t2).isEmpty) && !((objKeysDedup t2).contains e.1)
          then m else objSet m e.1 e.2)
        ((objKeysDedup t2).foldl (fun m tl => if tl = "" then m
          else objSet m tl (jsUnderscoresToSpaces (parseLocator a).2)) []))
        (parseLocator a).1 (jsUnderscoresToSpaces (parseLocator a).2)) := by
      rw [hstepf]
      exact objSet_perm (foldl_step_perm
        (fun e => (!(objKeysDedup t1).isEmpty) && !((objKeysDedup t1).contains e.1))
        entries hpre) _ _
    cases ro with
    | false => exact JsValPerm_resultsOrEmpty (hres.map _)
    | true => exact hres

theorem wikiexpand_perm (a : String) (t1 t2 : List String)
    (fT : Request → Except Unit (List (String × String)))
    (fS : Request → Except Unit (List String))
    (hset : ∀ x, x ∈ t1 ↔ x ∈ t2) :
    JsValPerm (WIKIEXPAND a t1 fT fS) (WIKIEXPAND a t2 fT fS) := by
  by_cases ha : a = ""
  · simp [WIKIEXPAND, ha, JsValPerm]
  by_cases ht : (parseLocator a).2 = ""
  · simp [WIKIEXPAND, if_neg ha, ht, JsValPerm]
  have hmem : ∀ x, x ∈ objKeysDedup t1 ↔ x ∈ objKeysDedup t2 := fun x => by
    rw [mem_objKeysDedup, mem_objKeysDedup]; exact hset x
  obtain ⟨m1, e1⟩ := wikitranslate_obj a (objKeysDedup t1) false fT ha ht
  obtain ⟨m2, e2⟩ := wikitranslate_obj a (objKeysDedup t2) false fT ha ht
  have hm : m1.Perm m2 := by
    have := wikitranslate_perm a (objKeysDedup t1) (objKeysDedup t2) false true fT hmem
    rw [e1, e2] at this
    exact this
  rw [WIKIEXPAND, WIKIEXPAND, if_neg ha, if_neg ha, if_neg ht, if_neg ht]
  simp only [e1, e2]
  exact hm.map _

/-- C9 counterexample: the target-language lists `["de", "fr"]` and
`["fr", "de"]` contain the same set of language codes (first two
conjuncts), yet on identical upstream data `WIKITRANSLATE` produces
different results: the rows come out in the insertion order of the
list, so the two calls return differently ordered tables. -/
theorem C9_counterexample :
    (["de", "fr"].all (fun x => ["fr", "de"].contains x) = true) ∧
    (["fr", "de"].all (fun x => ["de", "fr"].contains x) = true) ∧
    WIKITRANSLATE "en:Berlin" ["de", "fr"] false false (fun _ => Except.ok []) =
      .arr [Entry.row [.str "de", .str "Berlin"], Entry.row [.str "fr", .str "Berlin"],
            Entry.row [.str "en", .str "Berlin"]] ∧
    WIKITRANSLATE "en:Berlin" ["fr", "de"] false false (fun _ => Except.ok []) =
      .arr [Entry.row [.str "fr", .str "Berlin"], Entry.row [.str "de", .str "Berlin"],
            Entry.row [.str "en", .str "Berlin"]] ∧
    WIKITRANSLATE "en:Berlin" ["de", "fr"] false false (fun _ => Except.ok []) ≠
      WIKITRANSLATE "en:Berlin" ["fr", "de"] false false (fun _ => Except.ok []) :=
  ⟨by decide, by decide, by decide, by decide, by decide⟩

/-- C9 (amended): the target-language list of `WIKITRANSLATE` and
`WIKIEXPAND` is deduplicated before use (keeping the first occurrence
of each code), so a call behaves exactly like the call on the
deduplicated list (first two conjuncts), and two calls whose lists
contain the same set of codes produce, on identical upstream data,
results with exactly the same rows (last two conjuncts) - but possibly
in a different order, because the row order follows the first-occurrence
order of the list rather than being canonical. -/
theorem C9_amended_dedup_target_languages :
    (∀ (a : String) (targets : List String) (sh ro : Bool)
      (f : Request → Except Unit (List (String × String))),
      WIKITRANSLATE a targets sh ro f =
        WIKITRANSLATE a (objKeysDedup targets) sh ro f) ∧
    (∀ (a : String) (targets : List String)
      (fT : Request → Except Unit (List (String × String)))
      (fS : Request → Except Unit (List String)),
      WIKIEXPAND a targets fT fS = WIKIEXPAND a (objKeysDedup targets) fT fS) ∧
    (∀ (a : String) (t1 t2 : List String) (sh ro : Bool)
      (f : Request → Except Unit (List (String × String))),
      (∀ x, x ∈ t1 ↔ x ∈ t2) →
      JsValPerm (WIKITRANSLATE a t1 sh ro f) (WIKITRANSLATE a t2 sh ro f)) ∧
    (∀ (a : String) (t1 t2 : List String)
      (fT : Request → Except Unit (List (String × String)))
      (fS : Request → Except Unit (List String)),
      (∀ x, x ∈ t1 ↔ x ∈ t2) →
      JsValPerm (WIKIEXPAND a t1 fT fS) (WIKIEXPAND a t2 fT fS)) := by
  refine ⟨?_, ?_, wikitranslate_perm, wikiexpand_perm⟩
  · intro a t sh ro f
    simp only [WIKITRANSLATE, objKeysDedup_idem]
  · intro a t fT fS
    simp only [WIKIEXPAND, objKeysDedup_idem]

theorem C9_witness :
    WIKITRANSLATE "en:Berlin" ["de", "de", "fr"] false false (fun _ => Except.ok []) =
      WIKITRANSLATE "en:Berlin" (objKeysDedup ["de", "de", "fr"]) false false
        (fun _ => Except.ok []) ∧
    JsValPerm
      (WIKITRANSLATE "en:Berlin" ["de", "de", "fr"] false false (fun _ => Except.ok []))
      (WIKITRANSLATE "en:Berlin" ["fr", "de"] false false (fun _ => Except.ok [])) :=
  ⟨C9_amended_dedup_target_languages.1 "en:Berlin" ["de", "de", "fr"] false false _,
    C9_amended_dedup_target_languages.2.2.1 "en:Berlin" ["de", "de", "fr"] ["fr", "de"]
      false false _ (by intro x; simp [List.mem_cons]; tauto)⟩

end WP
